import Mathlib

/-!
# AIResumeTailor: background script and popup renderer

A shallow embedding of `src/background.js` and `src/popup.js`.

* JSON data (the API response body, the stored settings, the state objects sent to the
  popup) is the type `Json`; a JavaScript value read by the program is an `Option Json`,
  where `none` is `undefined`.
* A thrown JavaScript exception is a `JSError`; code that can throw returns `Except JSError _`.
* The asynchronous handler is cut at its suspension points (the storage callback and the two
  awaited API calls) into segments; every segment runs to completion, as on the single
  event-processing thread of the extension host.
* What the script does to the outside (messages, storage reads, requests) is recorded in a
  list of `Effect`s, oldest first.

Scope of the value model: strings are sequences of Unicode scalar values; a Number value is
carried as its sign and its decimal rendering, the two things the program can make of a number
(it never computes with one); a numeric string is converted with correct rounding, as V8 does;
console output is not recorded; the wording of engine-generated `TypeError` messages is V8's.
A broadcast is recorded when `chrome.runtime.sendMessage` is called; whether a popup receives
it does not reach the script's state, since `handleSendMessageError` (lines 184-190) only logs.
-/

namespace AIResumeTailor

/-! ## JavaScript values -/

/-- The sign of a Number value; both zeros have the sign `zero`. -/
inductive Sign where
  | negative
  | zero
  | positive
  deriving DecidableEq, Repr

/-- A Number value, as far as the program can tell numbers apart: its sign, which decides the
comparison with zero and the truthiness, and `text`, the string `Number::toString` gives for
it, which is what a template literal or `join` prints. Parsed JSON contains no `NaN`. For
instance 0.5 is `⟨.positive, "0.5"⟩` and the value parsed from `1e21` is `⟨.positive, "1e+21"⟩`. -/
structure JSNumber where
  sign : Sign
  text : String
  deriving DecidableEq, Repr

/-- The Number value of a natural number below 10^21, such as a length. -/
def JSNumber.ofNat (n : Nat) : JSNumber :=
  ⟨if n = 0 then .zero else .positive, toString n⟩

/-- JSON data as produced by `JSON.parse` or held in extension storage. An object is its list of
properties; the first entry for a key is the property's value. -/
inductive Json where
  | null
  | bool (b : Bool)
  | num (x : JSNumber)
  | str (s : String)
  | arr (items : List Json)
  | obj (props : List (String × Json))

/-- A JavaScript value: `none` stands for `undefined`. -/
abbrev JSVal := Option Json

/-- The constructor of a thrown error object. -/
inductive ErrorKind where
  | Error
  | TypeError
  | SyntaxError
  deriving DecidableEq, Repr

/-- A thrown error object: its constructor and its `message`. -/
structure JSError where
  kind : ErrorKind
  message : String
  deriving DecidableEq, Repr

/-- The `TypeError` raised by reading property `name` of `null` or `undefined`. -/
def cannotRead (base name : String) : JSError :=
  ⟨.TypeError, "Cannot read properties of " ++ base ++ " (reading '" ++ name ++ "')"⟩

/-- The `TypeError` raised when an object cannot be converted to a primitive. -/
def cannotConvert : JSError :=
  ⟨.TypeError, "Cannot convert object to primitive value"⟩

/-- Whether a value is `null` or `undefined` (the test made by `?.`). -/
def nullish : JSVal → Bool
  | none => true
  | some .null => true
  | some _ => false

/-- JavaScript truthiness (`ToBoolean`). -/
def truthy : JSVal → Bool
  | none => false
  | some .null => false
  | some (.bool b) => b
  | some (.num x) => decide (x.sign ≠ .zero)
  | some (.str s) => decide (s ≠ "")
  | some (.arr _) => true
  | some (.obj _) => true

/-- The test `typeof v === 'string'`. -/
def isString : JSVal → Bool
  | some (.str _) => true
  | _ => false

/-- The read `v.name` for a property name that no built-in prototype defines (every name the
program reads other than `length`, `0` and `map`): an own property of an object, `undefined`
on any other value, and a `TypeError` on `null` and `undefined`. -/
def prop (v : JSVal) (name : String) : Except JSError JSVal :=
  match v with
  | none => .error (cannotRead "undefined" name)
  | some .null => .error (cannotRead "null" name)
  | some (.obj ps) => .ok (ps.lookup name)
  | some _ => .ok none

/-- Number of UTF-16 code units of a string (its JavaScript `length`). -/
def utf16Length (s : String) : Nat :=
  (s.data.map fun c => if c.toNat < 65536 then 1 else 2).sum

/-- The read `v.length`. -/
def len (v : JSVal) : Except JSError JSVal :=
  match v with
  | none => .error (cannotRead "undefined" "length")
  | some .null => .error (cannotRead "null" "length")
  | some (.arr xs) => .ok (some (.num (.ofNat xs.length)))
  | some (.str s) => .ok (some (.num (.ofNat (utf16Length s))))
  | some (.obj ps) => .ok (ps.lookup "length")
  | some _ => .ok none

/-- The read `v[0]`. On a string it is the one-unit string at index 0; the program only reads
properties from that result, all of which are `undefined`, so a leading surrogate is not
distinguished from the character it starts. -/
def at0 (v : JSVal) : Except JSError JSVal :=
  match v with
  | none => .error (cannotRead "undefined" "0")
  | some .null => .error (cannotRead "null" "0")
  | some (.arr xs) => .ok xs.head?
  | some (.str s) => .ok (s.data.head?.map fun c => .str (String.mk [c]))
  | some (.obj ps) => .ok (ps.lookup "0")
  | some _ => .ok none

/-- Whether a JSON value is `null`. -/
def Json.isNull : Json → Bool
  | .null => true
  | _ => false

mutual
/-- The conversion `ToString` on JSON data. An object with an own `toString` property has no
callable conversion method left and throws; an array is joined with commas. -/
def Json.toStr : Json → Except JSError String
  | .null => .ok "null"
  | .bool b => .ok (if b then "true" else "false")
  | .num x => .ok x.text
  | .str s => .ok s
  | .arr xs => Json.joinStr xs
  | .obj ps => if (ps.lookup "toString").isSome then .error cannotConvert else .ok "[object Object]"
termination_by structural v => v
/-- The result of `Array.prototype.join` with the default separator: a `null` element gives the
empty string, any other element its `ToString`. -/
def Json.joinStr : List Json → Except JSError String
  | [] => .ok ""
  | x :: rest =>
      match (if x.isNull then .ok "" else Json.toStr x), rest, Json.joinStr rest with
      | .error e, _, _ => .error e
      | .ok _, _, .error e => .error e
      | .ok a, [], .ok _ => .ok a
      | .ok a, _ :: _, .ok b => .ok (a ++ "," ++ b)
termination_by structural l => l
end

/-- The conversion `ToString` on a value, as performed by a template literal. -/
def toStr : JSVal → Except JSError String
  | none => .ok "undefined"
  | some v => v.toStr

/-! ### String to number, as far as the sign -/

/-- White space and line terminators, the characters removed by `String.prototype.trim` and
skipped around a numeric string. -/
def isJSWhiteSpace (c : Char) : Bool :=
  let n := c.toNat
  n == 9 || n == 10 || n == 11 || n == 12 || n == 13 || n == 32 || n == 160 || n == 5760
    || (8192 ≤ n && n ≤ 8202) || n == 8232 || n == 8233 || n == 8239 || n == 8287
    || n == 12288 || n == 65279

/-- Characters of a string with leading and trailing white space removed. -/
def trimChars (l : List Char) : List Char :=
  ((l.dropWhile isJSWhiteSpace).reverse.dropWhile isJSWhiteSpace).reverse

/-- The method `String.prototype.trim`. -/
def jsTrim (s : String) : String :=
  String.mk (trimChars s.data)

/-- Whether a non-empty run of characters consists of digits accepted by `ok`. -/
def digitRun (ok : Char → Bool) (l : List Char) : Bool :=
  !l.isEmpty && l.all ok

/-- Whether some character of the run is a digit other than zero. -/
def someNonZero (l : List Char) : Bool :=
  l.any fun c => c != '0'

/-- The natural number written by a run of decimal digits. -/
def digitsValue (l : List Char) : Nat :=
  l.foldl (fun n c => 10 * n + (c.toNat - 48)) 0

/-- Whether the real number `m * 10 ^ k` is converted to a Number above zero. The least positive
Number is `2 ^ -1074`; a real number rounds to it or higher exactly when it lies strictly above
the halfway point `2 ^ -1075`, the tie going to zero. Above the largest Number the result is
`Infinity`, which is still above zero. -/
def roundsPositive (m : Nat) (k : Int) : Bool :=
  if m = 0 then false
  else if 0 ≤ k then true
  else decide (10 ^ k.natAbs < m * 2 ^ 1075)

/-- The value of the signed integer after an exponent marker, `none` when the characters are
not a signed integer. -/
def exponentValue : List Char → Option Int
  | '+' :: ds => if digitRun Char.isDigit ds then some (digitsValue ds) else none
  | '-' :: ds => if digitRun Char.isDigit ds then some (-(digitsValue ds : Int)) else none
  | ds => if digitRun Char.isDigit ds then some (digitsValue ds) else none

/-- For an unsigned decimal literal of the numeric-string grammar, `some b` where `b` tells
whether its value is converted to a Number above zero; `none` when the characters are not such
a literal. -/
def unsignedDecimal (l : List Char) : Option Bool :=
  if l = "Infinity".data then some true
  else
    let mantissa := l.takeWhile fun c => c != 'e' && c != 'E'
    let exponent := l.dropWhile fun c => c != 'e' && c != 'E'
    let intPart := mantissa.takeWhile fun c => c != '.'
    let rest := mantissa.dropWhile fun c => c != '.'
    let frac := rest.drop 1
    let mantissaOk :=
      match rest with
      | [] => digitRun Char.isDigit intPart
      | _ :: _ =>
          intPart.all Char.isDigit && frac.all Char.isDigit && !(intPart.isEmpty && frac.isEmpty)
    let exponentOf :=
      match exponent with
      | [] => some 0
      | _ :: e => exponentValue e
    match mantissaOk, exponentOf with
    | true, some e => some (roundsPositive (digitsValue (intPart ++ frac)) (e - frac.length))
    | _, _ => none

/-- Hexadecimal digits. -/
def isHexDigit (c : Char) : Bool :=
  c.isDigit || ('a' ≤ c && c ≤ 'f') || ('A' ≤ c && c ≤ 'F')

/-- Octal digits. -/
def isOctalDigit (c : Char) : Bool :=
  '0' ≤ c && c ≤ '7'

/-- Binary digits. -/
def isBinaryDigit (c : Char) : Bool :=
  c == '0' || c == '1'

/-- Whether `ToNumber` of a string is a number greater than zero: the trimmed string is an
unsigned or `+`-signed decimal literal whose value does not round to zero, or a hexadecimal,
octal or binary integer literal with a digit other than zero. -/
def stringPositive (s : String) : Bool :=
  match trimChars s.data with
  | '-' :: _ => false
  | '+' :: l => unsignedDecimal l == some true
  | '0' :: 'x' :: l => digitRun isHexDigit l && someNonZero l
  | '0' :: 'X' :: l => digitRun isHexDigit l && someNonZero l
  | '0' :: 'o' :: l => digitRun isOctalDigit l && someNonZero l
  | '0' :: 'O' :: l => digitRun isOctalDigit l && someNonZero l
  | '0' :: 'b' :: l => digitRun isBinaryDigit l && someNonZero l
  | '0' :: 'B' :: l => digitRun isBinaryDigit l && someNonZero l
  | l => unsignedDecimal l == some true

/-- The comparison `v > 0`: the value is converted to a primitive and then to a number. -/
def gtZero : JSVal → Except JSError Bool
  | none => .ok false
  | some .null => .ok false
  | some (.bool b) => .ok b
  | some (.num x) => .ok (decide (x.sign = .positive))
  | some (.str s) => .ok (stringPositive s)
  | some (.arr xs) =>
      match Json.joinStr xs with
      | .error e => .error e
      | .ok s => .ok (stringPositive s)
  | some (.obj ps) => if (ps.lookup "toString").isSome then .error cannotConvert else .ok false

/-! ## The API client (`callGeminiAPI`, background.js lines 1-68) -/

/-- The model identifier spliced into the request URL, trailing blanks included. -/
def GEMINI_MODEL_NAME : String := "gemini-2.5-flash-preview-04-17   "

/-- The arguments of the call to `fetch`: `body` is the object handed to `JSON.stringify`. -/
structure Request where
  url : String
  method : String
  contentType : String
  body : Json

/-- What the program reads from a response: the status line and the outcome of
`response.json()`, which rejects when the body is not JSON. -/
structure Response where
  status : Nat
  statusText : String
  json : Except JSError Json

/-- The flag `response.ok`: the status is in the range 200 to 299. -/
def Response.ok (r : Response) : Bool :=
  200 ≤ r.status && r.status ≤ 299

/-- How the promise returned by `fetch` settles. -/
inductive FetchOutcome where
  | rejected (e : JSError)
  | resolved (r : Response)

/-- The request built at lines 12-25. Splicing the key into the URL converts it to a string. -/
def geminiRequest (apiKey : JSVal) (promptText : String) : Except JSError Request := do
  let key ← toStr apiKey
  pure {
    url := "https://generativelanguage.googleapis.com/v1beta/models/" ++ GEMINI_MODEL_NAME
      ++ ":generateContent?key=" ++ key
    method := "POST"
    contentType := "application/json"
    body := .obj [("contents", .arr [.obj [("parts", .arr [.obj [("text", .str promptText)]])]])] }

/-- The test and the return of lines 36-42: `some text` when the three conjuncts hold, `none`
when one of them is false, an error when evaluating them throws. The source re-evaluates the
path `data.candidates[0].content.parts[0].text` in each conjunct; the reads have no effect, so
each is made once here. -/
def extractText (data : JSVal) : Except JSError (Option String) := do
  let candidates ← prop data "candidates"
  let n ← if nullish candidates then pure none else len candidates
  if ← gtZero n then
    let first ← at0 candidates
    let content ← prop first "content"
    let parts ← if nullish content then pure none else prop content "parts"
    let m ← if nullish parts then pure none else len parts
    if ← gtZero m then
      let part ← at0 parts
      let text ← prop part "text"
      match text with
      | some (.str s) => pure (some s)
      | _ => pure none
    else pure none
  else pure none

/-- The text of one safety rating, the callback of `map` at line 48. -/
def ratingText (r : Json) : Except JSError String := do
  let category ← toStr (← prop (some r) "category")
  let probability ← toStr (← prop (some r) "probability")
  pure (category ++ "(" ++ probability ++ ")")

/-- The diagnostic string `ratings` of lines 47-48. Only an array has a `map` method. -/
def safetyRatingsText (promptFeedback : JSVal) : Except JSError String := do
  let safetyRatings ← prop promptFeedback "safetyRatings"
  if nullish safetyRatings then pure "N/A"
  else
    match safetyRatings with
    | some (.arr rs) =>
        let joined := ", ".intercalate (← rs.mapM ratingText)
        pure (if joined ≠ "" then joined else "N/A")
    | _ => .error ⟨.TypeError, "data.promptFeedback.safetyRatings?.map is not a function"⟩

/-- The test `v !== 'STOP'`. -/
def notStop : JSVal → Bool
  | some (.str s) => decide (s ≠ "STOP")
  | _ => true

/-- The read `data.promptFeedback?.blockReason` of line 45. -/
def blockReasonOf (data : JSVal) : Except JSError JSVal := do
  let promptFeedback ← prop data "promptFeedback"
  if nullish promptFeedback then pure none else prop promptFeedback "blockReason"

/-- The read `data.candidates?.[0]?.finishReason` of line 54. -/
def finishReasonOf (data : JSVal) : Except JSError JSVal := do
  let candidates ← prop data "candidates"
  let first ← if nullish candidates then pure none else at0 candidates
  if nullish first then pure none else prop first "finishReason"

/-- Lines 35-62: what `callGeminiAPI` does with the parsed body of a successful response. -/
def readBody (data : Json) : Except JSError String := do
  match ← extractText (some data) with
  | some text => pure text
  | none =>
    let blockReason ← blockReasonOf (some data)
    if truthy blockReason then
      let _ ← safetyRatingsText (← prop (some data) "promptFeedback")
      let reason ← toStr blockReason
      .error ⟨.Error, "AI prompt blocked for reason: " ++ reason⟩
    else
      let finishReason ← finishReasonOf (some data)
      if truthy finishReason && notStop finishReason then
        let reason ← toStr finishReason
        .error ⟨.Error, "AI generation interrupted: " ++ reason⟩
      else
        .error ⟨.Error, "Unable to extract valid content from Gemini response."⟩

/-- Lines 21-67 from the point where `fetch` has settled; the `catch` rethrows what it caught. -/
def geminiResult : FetchOutcome → Except JSError String
  | .rejected e => .error e
  | .resolved r =>
    if r.ok then do
      let data ← r.json
      readBody data
    else do
      let errorBody ← r.json
      let error ← prop (some errorBody) "error"
      let message ← if nullish error then pure none else prop error "message"
      let shown ← if truthy message then toStr message else pure r.statusText
      .error ⟨.Error, "API request failed (status " ++ toString r.status ++ "): " ++ shown⟩

/-- The function `callGeminiAPI`: `net` is how the one request it sends is answered. -/
def callGeminiAPI (apiKey : JSVal) (promptText : String) (net : FetchOutcome) :
    Except JSError String := do
  let _ ← geminiRequest apiKey promptText
  geminiResult net

/-! ## The background state and the context-menu handler (background.js lines 70-190) -/

/-- The value `lastKnownState` is initialised with (lines 91-94, and again at lines 82-85). -/
def initialState : Json :=
  .obj [("type", .str "INITIAL"), ("message", .str "Right-click a job description to begin.")]

/-- The object literal of line 113. -/
def loadingState : Json :=
  .obj [("type", .str "SHOW_LOADING"), ("message", .str "Generating tailored content...")]

/-- The object literals `{ type: 'SHOW_RESULTS_ERROR', message }` of lines 104, 120, 129, 157. -/
def errorState (message : String) : Json :=
  .obj [("type", .str "SHOW_RESULTS_ERROR"), ("message", .str message)]

/-- The object literal of lines 149-152. -/
def resultsState (tailoredResume coverLetter : String) : Json :=
  .obj [("type", .str "SHOW_RESULTS"),
    ("payload", .obj [("tailoredResume", .str tailoredResume), ("coverLetter", .str coverLetter)])]

/-- The argument of the click listener: the menu item id (a string or a number) and the
selected text, absent when nothing is selected. -/
structure OnClickData where
  menuItemId : Json
  selectionText : Option String

/-- What the callback of `chrome.storage.local.get` finds: `chrome.runtime.lastError` set, or
the items object. -/
inductive StorageOutcome where
  | failed (message : String)
  | items (props : List (String × Json))

/-- The actions of the background script that are visible outside it, and the invocations of
`callGeminiAPI`. -/
inductive Effect where
  | createContextMenu (id title : String) (contexts : List String)
  | sendMessage (message : Json)
  | storageGet (keys : List String)
  | openOptionsPage
  | callGeminiAPI (apiKey : JSVal) (promptText : String)
  | fetch (request : Request)
  | sendResponse (message : Json)

/-- Where a handler invocation is suspended: in the storage read of line 117, in the first
awaited call of line 146, or in the second of line 147, with the variables still live there. -/
inductive Pending where
  | storage (selection : String)
  | resume (apiKey : JSVal) (coverLetterPrompt : String)
  | cover (tailoredResume : String)

/-- The outcome of one uninterrupted segment of the handler: the value of `lastKnownState` it
leaves, what it did, and where it is suspended (`none` when the invocation is over). -/
structure Step where
  state : Json
  effects : List Effect
  next : Option Pending

/-- The strict comparison `v === s` with a string `s`. -/
def strictEqStr (v : JSVal) (s : String) : Bool :=
  match v with
  | some (.str t) => decide (t = s)
  | _ => false

/-- The `catch` of lines 155-162. -/
def catchPipeline (err : JSError) : Step :=
  let lastKnownState := errorState ("An error occurred: " ++ err.message)
  ⟨lastKnownState, [.sendMessage lastKnownState], none⟩

/-- Entering `callGeminiAPI` from the `try` block: the call runs up to its `fetch`; if building
the request throws, control passes to the `catch` at once. -/
def startCall (apiKey : JSVal) (promptText : String) (next : Pending) (st : Json) : Step :=
  match geminiRequest apiKey promptText with
  | .error err =>
      let caught := catchPipeline err
      ⟨caught.state, .callGeminiAPI apiKey promptText :: caught.effects, none⟩
  | .ok request => ⟨st, [.callGeminiAPI apiKey promptText, .fetch request], some next⟩

/-- Lines 99-117: the click listener up to the storage read. -/
def onClicked (info : OnClickData) (st : Json) : Step :=
  if !strictEqStr (some info.menuItemId) "aiJobHelper" then ⟨st, [], none⟩
  else
    match info.selectionText.map jsTrim with
    | none | some "" =>
        let lastKnownState := errorState
          "No text was selected. Please highlight a job description and try again."
        ⟨lastKnownState, [.sendMessage lastKnownState], none⟩
    | some selection =>
        let lastKnownState := loadingState
        ⟨lastKnownState,
          [.sendMessage lastKnownState, .storageGet ["geminiApiKey", "userResume"]],
          some (.storage selection)⟩

/-- The template literal of line 142: it contains no substitution. -/
def resumePrompt : String := "..."

/-- The template literal of line 143: it contains no substitution. -/
def coverLetterPrompt : String := "..."

set_option linter.unusedVariables false in
/-- Lines 117-146: the storage callback up to the first awaited call. The variables `selection`
and `baseResume` are bound as in the source and, as there, not used afterwards. -/
def storageCallback (selection : String) (o : StorageOutcome) (st : Json) : Step :=
  match o with
  | .failed _ =>
      let lastKnownState := errorState "Unable to access settings. Please check your configuration."
      ⟨lastKnownState, [.sendMessage lastKnownState], none⟩
  | .items items =>
      if !truthy (items.lookup "geminiApiKey") || !truthy (items.lookup "userResume") then
        let lastKnownState := errorState "API key or resume not configured. Opening settings now."
        ⟨lastKnownState, [.sendMessage lastKnownState, .openOptionsPage], none⟩
      else
        let apiKey := items.lookup "geminiApiKey"
        let baseResume := items.lookup "userResume"
        startCall apiKey resumePrompt (.resume apiKey coverLetterPrompt) st

/-- Lines 146-147: the first call has settled; on success the second call is started. -/
def afterResume (apiKey : JSVal) (coverLetterPrompt : String) (net : FetchOutcome) (st : Json) :
    Step :=
  match geminiResult net with
  | .error err => catchPipeline err
  | .ok tailoredResume => startCall apiKey coverLetterPrompt (.cover tailoredResume) st

/-- Lines 147-153: the second call has settled. -/
def afterCover (tailoredResume : String) (net : FetchOutcome) : Step :=
  match geminiResult net with
  | .error err => catchPipeline err
  | .ok coverLetter =>
      let lastKnownState := resultsState tailoredResume coverLetter
      ⟨lastKnownState, [.sendMessage lastKnownState], none⟩

/-- One invocation of the click listener run to its end with nothing else in between: `storage`
is what the storage read finds, `net1` and `net2` how the first and the second request are
answered. The result is the final `lastKnownState` and everything the invocation did. -/
def handlerRun (info : OnClickData) (storage : StorageOutcome) (net1 net2 : FetchOutcome)
    (st : Json) : Json × List Effect :=
  let s1 := onClicked info st
  match s1.next with
  | some (.storage selection) =>
      let s2 := storageCallback selection storage s1.state
      match s2.next with
      | some (.resume apiKey coverLetterPrompt) =>
          let s3 := afterResume apiKey coverLetterPrompt net1 s2.state
          match s3.next with
          | some (.cover tailoredResume) =>
              let s4 := afterCover tailoredResume net2
              (s4.state, s1.effects ++ s2.effects ++ s3.effects ++ s4.effects)
          | _ => (s3.state, s1.effects ++ s2.effects ++ s3.effects)
      | _ => (s2.state, s1.effects ++ s2.effects)
  | _ => (s1.state, s1.effects)

/-- The message listener of lines 169-178: the effects of handling `request`. Reading `type`
from `null` or `undefined` throws. -/
def onMessage (request : JSVal) (lastKnownState : Json) : Except JSError (List Effect) := do
  let type ← prop request "type"
  if strictEqStr type "GET_LAST_KNOWN_STATE" then pure [.sendResponse lastKnownState]
  else pure []

/-! ### The background script as an event-driven machine -/

/-- The background script between two events: the variable `lastKnownState`, the handler
invocations that are suspended (each under the number it was given when it started), the number
for the next invocation, and everything done so far. -/
structure Background where
  lastKnownState : Json
  pending : List (Nat × Pending)
  nextRun : Nat
  effects : List Effect

/-- The script right after it is loaded (lines 91-94). -/
def Background.init : Background :=
  ⟨initialState, [], 0, []⟩

/-- What the host delivers to the script. -/
inductive Event where
  | installed
  | clicked (info : OnClickData)
  | storageDone (run : Nat) (o : StorageOutcome)
  | fetchDone (run : Nat) (o : FetchOutcome)
  | message (request : JSVal)

/-- The segment that event `ev` starts or resumes, if any: `none` when the event reaches no
listener code that acts (a completion for an invocation that is not waiting for it, or a message
whose handling throws). With the segment comes the number of the suspended invocation it
resumes, `none` for a listener entered afresh. -/
def segment (bg : Background) : Event → Option (Option Nat × Step)
  | .installed =>
      some (none,
        ⟨initialState,
          [.createContextMenu "aiJobHelper" "AI: Tailor Resume & Draft Cover Letter" ["selection"]],
          none⟩)
  | .clicked info => some (none, onClicked info bg.lastKnownState)
  | .storageDone run o =>
      match bg.pending.lookup run with
      | some (.storage selection) => some (some run, storageCallback selection o bg.lastKnownState)
      | _ => none
  | .fetchDone run o =>
      match bg.pending.lookup run with
      | some (.resume apiKey coverLetterPrompt) =>
          some (some run, afterResume apiKey coverLetterPrompt o bg.lastKnownState)
      | some (.cover tailoredResume) => some (some run, afterCover tailoredResume o)
      | _ => none
  | .message request =>
      match onMessage request bg.lastKnownState with
      | .ok effects => some (none, ⟨bg.lastKnownState, effects, none⟩)
      | .error _ => none

/-- What the script does in reaction to one event. -/
def stepEffects (bg : Background) (ev : Event) : List Effect :=
  match segment bg ev with
  | some (_, s) => s.effects
  | none => []

/-- The script after one event. -/
def step (bg : Background) (ev : Event) : Background :=
  match segment bg ev with
  | none => bg
  | some (none, s) =>
      { lastKnownState := s.state
        pending :=
          match s.next with
          | some p => (bg.nextRun, p) :: bg.pending
          | none => bg.pending
        nextRun := if s.next.isSome then bg.nextRun + 1 else bg.nextRun
        effects := bg.effects ++ s.effects }
  | some (some run, s) =>
      { lastKnownState := s.state
        pending :=
          match s.next with
          | some p => (run, p) :: bg.pending.filter (fun q => q.1 != run)
          | none => bg.pending.filter (fun q => q.1 != run)
        nextRun := bg.nextRun
        effects := bg.effects ++ s.effects }

/-- The script after a sequence of events. -/
def run (bg : Background) (evs : List Event) : Background :=
  evs.foldl step bg

/-- The message of a broadcast. -/
def Effect.broadcastOf : Effect → Option Json
  | .sendMessage m => some m
  | _ => none

/-- The message of the most recent broadcast in a list of effects, if there is one. -/
def lastBroadcast (effects : List Effect) : Option Json :=
  (effects.filterMap Effect.broadcastOf).getLast?

/-- Whether an effect is an invocation of `callGeminiAPI`. -/
def Effect.isCall : Effect → Bool
  | .callGeminiAPI _ _ => true
  | _ => false

/-- Whether an effect is a request sent with `fetch`. -/
def Effect.isFetch : Effect → Bool
  | .fetch _ => true
  | _ => false

/-- The prompt of an invocation of `callGeminiAPI`. -/
def Effect.promptOf : Effect → Option String
  | .callGeminiAPI _ promptText => some promptText
  | _ => none

/-! ## The popup renderer (popup.js lines 1-58) -/

/-- The part of the popup document the renderer touches: the text and the class tokens of the
status message element, the class tokens of the results container, and the values of the two
text areas. The four elements are taken to exist in the page. -/
structure Popup where
  statusText : String
  statusClasses : List String
  resultsClasses : List String
  tailoredResume : String
  coverLetter : String

/-- The method `classList.add` with one token. -/
def classAdd (classes : List String) (token : String) : List String :=
  if token ∈ classes then classes else classes ++ [token]

/-- The method `classList.remove` with one token. -/
def classRemove (classes : List String) (token : String) : List String :=
  classes.filter fun c => c != token

/-- The string stored by an assignment to `textContent`: `null` and `undefined` clear the text,
any other value is converted with `ToString`. -/
def textContentOf (v : JSVal) : Except JSError String :=
  if nullish v then .ok "" else toStr v

/-- The string stored by an assignment to the `value` of a text area: `null` gives the empty
string, any other value is converted with `ToString`. -/
def textareaValueOf (v : JSVal) : Except JSError String :=
  match v with
  | some .null => .ok ""
  | _ => toStr v

/-- The function `showStatus` (lines 41-51). -/
def showStatus (message : JSVal) (isError : Bool) (dom : Popup) : Except JSError Popup := do
  let text ← textContentOf message
  let className := if isError then ["error"] else ["loading"]
  let className :=
    if !isError && strictEqStr message "Processing... Please wait." then ["loading"]
    else if !isError then []
    else className
  pure { dom with
    statusText := text
    statusClasses := classRemove className "hidden"
    resultsClasses := classAdd dom.resultsClasses "hidden" }

/-- The function `showResults` (lines 53-58). -/
def showResults (resume coverLetter : JSVal) (dom : Popup) : Except JSError Popup := do
  let resumeValue ← textareaValueOf resume
  let coverLetterValue ← textareaValueOf coverLetter
  pure { dom with
    tailoredResume := resumeValue
    coverLetter := coverLetterValue
    resultsClasses := classRemove dom.resultsClasses "hidden"
    statusClasses := classAdd dom.statusClasses "hidden" }

/-- The expression `v || fallback` with a string fallback. -/
def orDefault (v : JSVal) (fallback : String) : JSVal :=
  if truthy v then v else some (.str fallback)

/-- The function `updatePopupUI` (lines 8-39). -/
def updatePopupUI (state : JSVal) (dom : Popup) : Except JSError Popup :=
  if !truthy state then showStatus (some (.str "Initializing...")) false dom
  else do
    let type ← prop state "type"
    if strictEqStr type "SHOW_LOADING" then
      showStatus (orDefault (← prop state "message") "Processing... Please wait.") false dom
    else if strictEqStr type "SHOW_RESULTS" then
      let payload ← prop state "payload"
      if truthy payload then
        showResults (← prop payload "tailoredResume") (← prop payload "coverLetter") dom
      else showStatus (some (.str "Received results but no data.")) true dom
    else if strictEqStr type "SHOW_RESULTS_ERROR" then
      showStatus (orDefault (← prop state "message") "An unspecified error occurred.") true dom
    else if strictEqStr type "INITIAL" then
      let shown ← showStatus
        (orDefault (← prop state "message") "Right-click selected job description to start.")
        false dom
      pure { shown with
        resultsClasses := classAdd shown.resultsClasses "hidden"
        statusClasses := [] }
    else showStatus (some (.str "Unexpected state. Check console.")) true dom

/-- An element is shown when it does not carry the class `hidden`. -/
def visible (classes : List String) : Prop :=
  "hidden" ∉ classes

/-- Exactly one of the status message and the results container is shown. -/
def oneVisible (dom : Popup) : Prop :=
  (visible dom.statusClasses ∧ ¬ visible dom.resultsClasses) ∨
    (¬ visible dom.statusClasses ∧ visible dom.resultsClasses)

/-! ## Vocabulary of the statements -/

/-- A selection is blank when every character of it is white space. -/
def Blank (s : String) : Prop :=
  ∀ c ∈ s.data, isJSWhiteSpace c = true

/-- The state broadcast for a missing selection (lines 104-107). -/
def noSelectionState : Json :=
  errorState "No text was selected. Please highlight a job description and try again."

/-- The state broadcast when a setting is missing (lines 129-132). -/
def notConfiguredState : Json :=
  errorState "API key or resume not configured. Opening settings now."

/-- The four shapes of state object the background script builds. -/
def IsVariant (m : Json) : Prop :=
  (∃ t, m = .obj [("type", .str "INITIAL"), ("message", .str t)]) ∨
  (∃ t, m = .obj [("type", .str "SHOW_LOADING"), ("message", .str t)]) ∨
  (∃ r c, m = .obj [("type", .str "SHOW_RESULTS"),
    ("payload", .obj [("tailoredResume", .str r), ("coverLetter", .str c)])]) ∨
  (∃ t, m = .obj [("type", .str "SHOW_RESULTS_ERROR"), ("message", .str t)])

/-- A value has items: it is not `null` or `undefined` and its `length` compares greater than
zero. For an array this says that it is not empty. -/
def HasItems (v : JSVal) : Prop :=
  nullish v = false ∧ ∃ n, len v = .ok n ∧ gtZero n = .ok true

/-- The body `data` carries the text `t` at `candidates[0].content.parts[0].text`. -/
def TextAt (data : Json) (t : String) : Prop :=
  ∃ candidates first content parts part,
    prop (some data) "candidates" = .ok candidates ∧ HasItems candidates ∧
    at0 candidates = .ok first ∧ prop first "content" = .ok content ∧ nullish content = false ∧
    prop content "parts" = .ok parts ∧ HasItems parts ∧
    at0 parts = .ok part ∧ prop part "text" = .ok (some (.str t))

/-- The body carries no text: the test of lines 36-40 evaluates to false without throwing. -/
def NoText (data : Json) : Prop :=
  extractText (some data) = .ok none

/-- The diagnostic text of the safety ratings can be built, that is, lines 47-48 do not throw:
`safetyRatings` is absent or `null`, or it is an array whose elements are not `null` and have
printable `category` and `probability`. -/
def RatingsPrintable (data : Json) : Prop :=
  ∃ promptFeedback text,
    prop (some data) "promptFeedback" = .ok promptFeedback ∧
      safetyRatingsText promptFeedback = .ok text

/-- Every broadcast of a segment carries the state the segment leaves in `lastKnownState`, and
that state is one of the four variants. -/
def BroadcastsState (s : Step) : Prop :=
  ∀ m, Effect.sendMessage m ∈ s.effects → m = s.state ∧ IsVariant m

/-- The request the popup sends when it opens (popup.js line 67). -/
def pullRequest : Json :=
  .obj [("type", .str "GET_LAST_KNOWN_STATE")]

/-- A state object with a `type` and, when given, a string `message`. -/
def messageState (type : String) (message : Option String) : Json :=
  .obj (("type", .str type) ::
    match message with
    | some text => [("message", .str text)]
    | none => [])

/-- The view shows the status message and hides the results. -/
def StatusShown (dom : Popup) : Prop :=
  visible dom.statusClasses ∧ ¬ visible dom.resultsClasses

/-- The view shows the results and hides the status message. -/
def ResultsShown (dom : Popup) : Prop :=
  ¬ visible dom.statusClasses ∧ visible dom.resultsClasses

/-- The string `sub` occurs in the string `s`. -/
def Contains (s sub : String) : Prop :=
  ∃ before after, s = before ++ sub ++ after

/-! ## Sample inputs -/

/-- A click on the registered menu item with the selection of the specification example. -/
def sampleClick : OnClickData :=
  ⟨.str "aiJobHelper", some "Senior Backend Engineer, 5 years Go experience..."⟩

/-- Stored settings with both fields present. -/
def sampleItems : List (String × Json) :=
  [("geminiApiKey", .str "k"), ("userResume", .str "My resume")]

/-- A response body carrying one candidate with one text part. -/
def textBody (t : String) : Json :=
  .obj [("candidates", .arr [.obj [("content", .obj [("parts", .arr [.obj [("text", .str t)]])])]])]

/-- A body with a candidate text and a block reason at once. -/
def blockedWithText : Json :=
  .obj [("candidates", .arr [.obj [("content", .obj [("parts", .arr [.obj [("text", .str "hi")]])])]]),
    ("promptFeedback", .obj [("blockReason", .str "SAFETY")])]

/-- A body with a block reason whose `safetyRatings` is an object, not an array. -/
def blockedOddRatings : Json :=
  .obj [("promptFeedback", .obj [("blockReason", .str "SAFETY"), ("safetyRatings", .obj [])])]

/-- A body of a blocked prompt: no candidates, a block reason and a list of ratings. -/
def blockedBody : Json :=
  .obj [("promptFeedback", .obj [("blockReason", .str "SAFETY"),
    ("safetyRatings", .arr [.obj [("category", .str "HARM_CATEGORY_DANGEROUS_CONTENT"),
      ("probability", .str "HIGH")]])])]

/-- A body whose first candidate carries text and the finish reason `MAX_TOKENS`. -/
def truncatedWithText : Json :=
  .obj [("candidates", .arr [.obj [
    ("content", .obj [("parts", .arr [.obj [("text", .str "partial")]])]),
    ("finishReason", .str "MAX_TOKENS")]])]

/-- A body without text that has both a block reason and a finish reason. -/
def blockedAndHalted : Json :=
  .obj [("candidates", .arr [.obj [("finishReason", .str "SAFETY")]]),
    ("promptFeedback", .obj [("blockReason", .str "OTHER")])]

/-- A body whose first candidate has no content and the finish reason `MAX_TOKENS`. -/
def haltedBody : Json :=
  .obj [("candidates", .arr [.obj [("finishReason", .str "MAX_TOKENS")]])]

/-- A body whose `candidates` is an object with a `length` and a property `0`, not an array. -/
def arrayLikeBody : Json :=
  .obj [("candidates", .obj [("length", .num (.ofNat 1)),
    ("0", .obj [("content", .obj [("parts", .arr [.obj [("text", .str "hi")]])])])])]

/-- A body whose `candidates` is an object whose `length` is a numeric string that rounds to
zero. -/
def tinyLengthBody : Json :=
  .obj [("candidates", .obj [("length", .str "1e-400"),
    ("0", .obj [("content", .obj [("parts", .arr [.obj [("text", .str "hi")]])])])])]

/-- A response with status 200 and the given JSON body. -/
def okResponse (body : Json) : FetchOutcome :=
  .resolved ⟨200, "OK", .ok body⟩

/-- A response with status 500 and an error body. -/
def serverError : FetchOutcome :=
  .resolved ⟨500, "Internal Server Error", .ok (.obj [("error", .obj [("message", .str "boom")])])⟩

/-- A popup document in which both elements start hidden. -/
def samplePopup : Popup :=
  ⟨"", ["hidden"], ["hidden"], "", ""⟩

/-- A request that fails in transport. -/
def failedFetch : FetchOutcome :=
  .rejected ⟨.TypeError, "Failed to fetch"⟩

/-! ## Lemmas -/

theorem trimChars_eq_nil_iff (l : List Char) :
    trimChars l = [] ↔ ∀ c ∈ l, isJSWhiteSpace c = true := by
  unfold trimChars
  rw [List.reverse_eq_nil_iff, List.dropWhile_eq_nil_iff]
  constructor
  · intro h
    have hnil : l.dropWhile isJSWhiteSpace = [] := by
      by_contra hne
      have h1 := List.head_dropWhile_not isJSWhiteSpace l hne
      have h2 := h _ (List.mem_reverse.mpr (List.head_mem hne))
      rw [h1] at h2
      exact Bool.false_ne_true h2
    exact List.dropWhile_eq_nil_iff.mp hnil
  · intro h x hx
    have : l.dropWhile isJSWhiteSpace = [] := List.dropWhile_eq_nil_iff.mpr h
    rw [this] at hx
    simp at hx

theorem jsTrim_eq_empty_iff (s : String) : jsTrim s = "" ↔ Blank s := by
  unfold jsTrim Blank
  rw [← trimChars_eq_nil_iff]
  constructor
  · intro h
    have := congrArg String.data h
    simpa using this
  · intro h
    rw [h]

theorem onClicked_blank (info : OnClickData) (st : Json)
    (hid : info.menuItemId = .str "aiJobHelper")
    (hsel : ∀ s, info.selectionText = some s → Blank s) :
    onClicked info st = ⟨noSelectionState, [.sendMessage noSelectionState], none⟩ := by
  unfold onClicked
  simp only [hid, strictEqStr, decide_True, Bool.not_true, Bool.false_eq_true, if_false]
  cases hs : info.selectionText with
  | none => rfl
  | some s =>
    have := (jsTrim_eq_empty_iff s).mpr (hsel s hs)
    simp [this]
    rfl

theorem onClicked_selection (info : OnClickData) (st : Json) (s : String)
    (hid : info.menuItemId = .str "aiJobHelper")
    (hsel : info.selectionText = some s) (hs : ¬ Blank s) :
    onClicked info st = ⟨loadingState,
      [.sendMessage loadingState, .storageGet ["geminiApiKey", "userResume"]],
      some (.storage (jsTrim s))⟩ := by
  unfold onClicked
  simp only [hid, strictEqStr, decide_True, Bool.not_true, Bool.false_eq_true, if_false, hsel, Option.map_some']
  have : jsTrim s ≠ "" := fun h => hs ((jsTrim_eq_empty_iff s).mp h)
  split
  · next h => simp at h
  · next h => simp at h; exact absurd h this
  · next sel h1 h => simp at h; subst h; rfl

theorem storageCallback_generate (selection : String) (items : List (String × Json)) (st : Json)
    (hk : truthy (items.lookup "geminiApiKey") = true)
    (hr : truthy (items.lookup "userResume") = true) :
    storageCallback selection (.items items) st =
      startCall (items.lookup "geminiApiKey") resumePrompt
        (.resume (items.lookup "geminiApiKey") coverLetterPrompt) st := by
  simp [storageCallback, hk, hr]

theorem storageCallback_missing (selection : String) (items : List (String × Json)) (st : Json)
    (h : truthy (items.lookup "geminiApiKey") = false ∨ truthy (items.lookup "userResume") = false) :
    storageCallback selection (.items items) st =
      ⟨notConfiguredState, [.sendMessage notConfiguredState, .openOptionsPage], none⟩ := by
  rcases h with h | h <;> simp [storageCallback, h, notConfiguredState]

theorem callGeminiAPI_eq (apiKey : JSVal) (promptText : String) (net : FetchOutcome) :
    callGeminiAPI apiKey promptText net =
      match geminiRequest apiKey promptText with
      | .error e => .error e
      | .ok _ => geminiResult net := by
  unfold callGeminiAPI
  cases geminiRequest apiKey promptText <;> rfl

theorem handlerRun_first_fails (info : OnClickData) (items : List (String × Json))
    (net1 net2 : FetchOutcome) (st : Json) (s : String) (e : JSError)
    (hid : info.menuItemId = .str "aiJobHelper")
    (hsel : info.selectionText = some s) (hs : ¬ Blank s)
    (hk : truthy (items.lookup "geminiApiKey") = true)
    (hr : truthy (items.lookup "userResume") = true)
    (h1 : callGeminiAPI (items.lookup "geminiApiKey") resumePrompt net1 = .error e) :
    ∃ requests, (∀ x ∈ requests, x.isFetch = true) ∧ requests.length ≤ 1 ∧
      handlerRun info (.items items) net1 net2 st =
        (errorState ("An error occurred: " ++ e.message),
          [.sendMessage loadingState, .storageGet ["geminiApiKey", "userResume"],
            .callGeminiAPI (items.lookup "geminiApiKey") resumePrompt] ++ requests ++
          [.sendMessage (errorState ("An error occurred: " ++ e.message))]) := by
  rw [callGeminiAPI_eq] at h1
  unfold handlerRun
  rw [onClicked_selection info st s hid hsel hs]
  simp only [storageCallback_generate _ _ _ hk hr]
  unfold startCall
  cases hq : geminiRequest (items.lookup "geminiApiKey") resumePrompt with
  | error err =>
    rw [hq] at h1
    simp only [Except.error.injEq] at h1
    subst h1
    exact ⟨[], by simp, by simp, by simp [catchPipeline]⟩
  | ok request =>
    rw [hq] at h1
    simp only at h1
    refine ⟨[.fetch request], by simp [Effect.isFetch], by simp, ?_⟩
    simp [afterResume, h1, catchPipeline]

theorem handlerRun_second (info : OnClickData) (items : List (String × Json))
    (net1 net2 : FetchOutcome) (st : Json) (s r : String)
    (hid : info.menuItemId = .str "aiJobHelper")
    (hsel : info.selectionText = some s) (hs : ¬ Blank s)
    (hk : truthy (items.lookup "geminiApiKey") = true)
    (hr : truthy (items.lookup "userResume") = true)
    (h1 : callGeminiAPI (items.lookup "geminiApiKey") resumePrompt net1 = .ok r) :
    ∃ request, geminiRequest (items.lookup "geminiApiKey") resumePrompt = .ok request ∧
      ∃ request2, geminiRequest (items.lookup "geminiApiKey") coverLetterPrompt = .ok request2 ∧
      handlerRun info (.items items) net1 net2 st =
        ((afterCover r net2).state,
          [.sendMessage loadingState, .storageGet ["geminiApiKey", "userResume"],
            .callGeminiAPI (items.lookup "geminiApiKey") resumePrompt, .fetch request,
            .callGeminiAPI (items.lookup "geminiApiKey") coverLetterPrompt, .fetch request2] ++
          (afterCover r net2).effects) := by
  rw [callGeminiAPI_eq] at h1
  unfold handlerRun
  rw [onClicked_selection info st s hid hsel hs]
  simp only [storageCallback_generate _ _ _ hk hr]
  unfold startCall
  cases hq : geminiRequest (items.lookup "geminiApiKey") resumePrompt with
  | error err =>
    rw [hq] at h1
    simp at h1
  | ok request =>
    rw [hq] at h1
    simp only at h1
    have hq2 : geminiRequest (items.lookup "geminiApiKey") coverLetterPrompt =
        .ok { request with body := .obj [("contents", .arr [.obj [("parts", .arr [.obj [("text", .str coverLetterPrompt)]])]])] } := by
      unfold geminiRequest at hq ⊢
      cases hs : toStr (items.lookup "geminiApiKey") with
      | error e => rw [hs] at hq; simp [bind, Except.bind] at hq
      | ok key =>
        rw [hs] at hq
        simp only [bind, Except.bind, pure, Except.pure, Except.ok.injEq] at hq ⊢
        subst hq
        rfl
    refine ⟨request, rfl, _, hq2, ?_⟩
    simp [afterResume, h1, startCall, hq2]

theorem lastBroadcast_append_send (l : List Effect) (m : Json) :
    lastBroadcast (l ++ [.sendMessage m]) = some m := by
  simp [lastBroadcast, List.filterMap_append, Effect.broadcastOf]

theorem countP_isCall_fetches (requests : List Effect)
    (h : ∀ x ∈ requests, x.isFetch = true) : requests.countP Effect.isCall = 0 := by
  rw [List.countP_eq_zero]
  intro x hx
  have := h x hx
  cases x <;> simp_all [Effect.isFetch, Effect.isCall]

theorem afterCover_effects (tailoredResume : String) (net : FetchOutcome) :
    (afterCover tailoredResume net).effects = [.sendMessage (afterCover tailoredResume net).state] ∧
      (afterCover tailoredResume net).next = none := by
  unfold afterCover
  cases geminiResult net <;> simp [catchPipeline]

theorem geminiResult_of_call {apiKey : JSVal} {promptText : String} {net : FetchOutcome}
    {request : Request} (hq : geminiRequest apiKey promptText = .ok request) :
    callGeminiAPI apiKey promptText net = geminiResult net := by
  rw [callGeminiAPI_eq, hq]

theorem geminiRequest_str (k promptText : String) :
    ∃ request, geminiRequest (some (.str k)) promptText = .ok request :=
  ⟨_, rfl⟩

theorem readBody_of_text (data : Json) (t : String)
    (h : extractText (some data) = .ok (some t)) : readBody data = .ok t := by
  simp [readBody, h, bind, Except.bind, pure, Except.pure]

theorem readBody_blocked (data : Json) (reason : String) (pf : JSVal) (ratings : String)
    (htext : extractText (some data) = .ok none)
    (hblock : blockReasonOf (some data) = .ok (some (.str reason))) (hne : reason ≠ "")
    (hpf : prop (some data) "promptFeedback" = .ok pf)
    (hratings : safetyRatingsText pf = .ok ratings) :
    readBody data = .error ⟨.Error, "AI prompt blocked for reason: " ++ reason⟩ := by
  have hr : truthy (some (.str reason)) = true := by simp [truthy, hne]
  simp [readBody, htext, hblock, hpf, hratings, hr, toStr, Json.toStr, bind, Except.bind, pure,
    Except.pure]

theorem readBody_interrupted (data : Json) (f : String) (br : JSVal)
    (htext : extractText (some data) = .ok none)
    (hblock : blockReasonOf (some data) = .ok br) (hbr : truthy br = false)
    (hfinish : finishReasonOf (some data) = .ok (some (.str f)))
    (hne : f ≠ "") (hstop : f ≠ "STOP") :
    readBody data = .error ⟨.Error, "AI generation interrupted: " ++ f⟩ := by
  have hf : truthy (some (.str f)) = true := by simp [truthy, hne]
  simp [readBody, htext, hblock, hbr, hfinish, hf, notStop, hstop, toStr, Json.toStr, bind,
    Except.bind, pure, Except.pure]

theorem readBody_ok_iff (data : Json) (t : String) :
    readBody data = .ok t ↔ extractText (some data) = .ok (some t) := by
  constructor
  · intro h
    unfold readBody at h
    cases hx : extractText (some data) with
    | error e => simp [hx, bind, Except.bind] at h
    | ok o =>
      cases o with
      | some text =>
        simp [hx, bind, Except.bind, pure, Except.pure] at h
        rw [h]
      | none =>
        exfalso
        simp only [hx, bind, Except.bind] at h
        repeat' split at h
        all_goals simp at h
  · exact readBody_of_text data t

theorem hasItems_iff (v : JSVal) :
    HasItems v ↔
      ((do let n ← (if nullish v then pure none else len v); gtZero n) : Except JSError Bool)
        = .ok true := by
  unfold HasItems
  cases hn : nullish v with
  | true => simp [gtZero, bind, Except.bind, pure, Except.pure]
  | false =>
    cases hl : len v with
    | error e => simp [bind, Except.bind]
    | ok n => simp [bind, Except.bind]

theorem extractText_some_iff (data : Json) (t : String) :
    extractText (some data) = .ok (some t) ↔ TextAt data t := by
  constructor
  · intro h
    unfold extractText at h
    simp only [bind, Except.bind, pure, Except.pure] at h
    cases h1 : prop (some data) "candidates" with
    | error e => simp [h1] at h
    | ok candidates =>
      simp only [h1] at h
      cases hn : nullish candidates with
      | true => simp [hn, gtZero] at h
      | false =>
        simp only [hn, Bool.false_eq_true, if_false] at h
        cases h2 : len candidates with
        | error e => simp [h2] at h
        | ok n =>
          simp only [h2] at h
          cases h3 : gtZero n with
          | error e => simp [h3] at h
          | ok b =>
            cases b with
            | false => simp [h3] at h
            | true =>
              simp only [h3, if_true] at h
              cases h4 : at0 candidates with
              | error e => simp [h4] at h
              | ok first =>
                simp only [h4] at h
                cases h5 : prop first "content" with
                | error e => simp [h5] at h
                | ok content =>
                  simp only [h5] at h
                  cases hc : nullish content with
                  | true =>
                    simp only [hc, if_true] at h
                    simp [gtZero, nullish] at h
                  | false =>
                    simp only [hc, Bool.false_eq_true, if_false] at h
                    cases h6 : prop content "parts" with
                    | error e => simp [h6] at h
                    | ok parts =>
                      simp only [h6] at h
                      cases hp : nullish parts with
                      | true => simp [hp, gtZero] at h
                      | false =>
                        simp only [hp, Bool.false_eq_true, if_false] at h
                        cases h7 : len parts with
                        | error e => simp [h7] at h
                        | ok m =>
                          simp only [h7] at h
                          cases h8 : gtZero m with
                          | error e => simp [h8] at h
                          | ok b =>
                            cases b with
                            | false => simp [h8] at h
                            | true =>
                              simp only [h8, if_true] at h
                              cases h9 : at0 parts with
                              | error e => simp [h9] at h
                              | ok part =>
                                simp only [h9] at h
                                cases h10 : prop part "text" with
                                | error e => simp [h10] at h
                                | ok text =>
                                  simp only [h10] at h
                                  have ht : text = some (.str t) := by
                                    split at h <;> simp_all
                                  subst ht
                                  exact ⟨candidates, first, content, parts, part, h1, ⟨hn, n, h2, h3⟩,
                                    h4, h5, hc, h6, ⟨hp, m, h7, h8⟩, h9, h10⟩
  · rintro ⟨candidates, first, content, parts, part, h1, ⟨hn, n, h2, h3⟩, h4, h5, hc, h6,
      ⟨hp, m, h7, h8⟩, h9, h10⟩
    simp [extractText, h1, hn, h2, h3, h4, h5, hc, h6, hp, h7, h8, h9, h10, bind, Except.bind,
      pure, Except.pure]

theorem geminiResult_ok_iff (net : FetchOutcome) (t : String) :
    geminiResult net = .ok t ↔
      ∃ r data, net = .resolved r ∧ r.ok = true ∧ r.json = .ok data ∧ TextAt data t := by
  constructor
  · intro h
    cases net with
    | rejected e => simp [geminiResult] at h
    | resolved r =>
      unfold geminiResult at h
      cases hok : r.ok with
      | false =>
        exfalso
        simp only [hok, Bool.false_eq_true, if_false, bind, Except.bind] at h
        repeat' split at h
        all_goals simp at h
      | true =>
        simp only [hok, if_true, bind, Except.bind] at h
        cases hj : r.json with
        | error e => simp [hj] at h
        | ok data =>
          simp only [hj] at h
          exact ⟨r, data, rfl, hok, hj, (extractText_some_iff data t).mp ((readBody_ok_iff data t).mp h)⟩
  · rintro ⟨r, data, rfl, hok, hj, ht⟩
    simp [geminiResult, hok, hj, bind, Except.bind,
      readBody_of_text data t ((extractText_some_iff data t).mpr ht)]

theorem handlerRun_failure_state (info : OnClickData) (items : List (String × Json))
    (net1 net2 : FetchOutcome) (st : Json) (s : String) (e : JSError)
    (hid : info.menuItemId = .str "aiJobHelper")
    (hsel : info.selectionText = some s) (hs : ¬ Blank s)
    (hk : truthy (items.lookup "geminiApiKey") = true)
    (hr : truthy (items.lookup "userResume") = true)
    (h : callGeminiAPI (items.lookup "geminiApiKey") resumePrompt net1 = .error e ∨
      ∃ r, callGeminiAPI (items.lookup "geminiApiKey") resumePrompt net1 = .ok r ∧
        callGeminiAPI (items.lookup "geminiApiKey") coverLetterPrompt net2 = .error e) :
    (handlerRun info (.items items) net1 net2 st).1 =
        errorState ("An error occurred: " ++ e.message) ∧
      lastBroadcast (handlerRun info (.items items) net1 net2 st).2 =
        some (errorState ("An error occurred: " ++ e.message)) := by
  rcases h with h1 | ⟨r, h1, h2⟩
  · obtain ⟨requests, _, _, hrun⟩ :=
      handlerRun_first_fails info items net1 net2 st s e hid hsel hs hk hr h1
    rw [hrun]
    exact ⟨rfl, lastBroadcast_append_send _ _⟩
  · obtain ⟨request, _, request2, hq2, hrun⟩ :=
      handlerRun_second info items net1 net2 st s r hid hsel hs hk hr h1
    rw [geminiResult_of_call hq2] at h2
    have hc : afterCover r net2 = catchPipeline e := by
      simp [afterCover, h2]
    rw [hrun, hc]
    exact ⟨rfl, lastBroadcast_append_send _ _⟩

theorem isVariant_errorState (t : String) : IsVariant (errorState t) :=
  Or.inr (Or.inr (Or.inr ⟨t, rfl⟩))

theorem isVariant_loadingState : IsVariant loadingState :=
  Or.inr (Or.inl ⟨_, rfl⟩)

theorem catchPipeline_broadcasts (e : JSError) : BroadcastsState (catchPipeline e) := by
  intro m hm
  simp [catchPipeline] at hm
  subst hm
  exact ⟨rfl, isVariant_errorState _⟩

theorem startCall_broadcasts (apiKey : JSVal) (promptText : String) (next : Pending) (st : Json) :
    BroadcastsState (startCall apiKey promptText next st) := by
  intro m hm
  unfold startCall at hm ⊢
  cases hq : geminiRequest apiKey promptText with
  | error err =>
    simp [hq, catchPipeline] at hm ⊢
    subst hm
    exact ⟨rfl, isVariant_errorState _⟩
  | ok request => simp [hq] at hm

theorem onClicked_broadcasts (info : OnClickData) (st : Json) :
    BroadcastsState (onClicked info st) := by
  unfold onClicked
  split
  · intro m hm
    simp at hm
  · split
    · intro m hm
      simp at hm
      subst hm
      exact ⟨rfl, isVariant_errorState _⟩
    · intro m hm
      simp at hm
      subst hm
      exact ⟨rfl, isVariant_errorState _⟩
    · intro m hm
      simp at hm
      subst hm
      exact ⟨rfl, isVariant_loadingState⟩

theorem storageCallback_broadcasts (selection : String) (o : StorageOutcome) (st : Json) :
    BroadcastsState (storageCallback selection o st) := by
  cases o with
  | failed message =>
    intro m hm
    simp [storageCallback] at hm ⊢
    subst hm
    exact ⟨rfl, isVariant_errorState _⟩
  | items items =>
    unfold storageCallback
    simp only
    split
    · intro m hm
      simp at hm ⊢
      subst hm
      exact ⟨rfl, isVariant_errorState _⟩
    · exact startCall_broadcasts _ _ _ _

theorem afterResume_broadcasts (apiKey : JSVal) (prompt : String) (net : FetchOutcome)
    (st : Json) : BroadcastsState (afterResume apiKey prompt net st) := by
  unfold afterResume
  cases geminiResult net with
  | error e => exact catchPipeline_broadcasts e
  | ok t => exact startCall_broadcasts _ _ _ _

theorem afterCover_broadcasts (tailoredResume : String) (net : FetchOutcome) :
    BroadcastsState (afterCover tailoredResume net) := by
  unfold afterCover
  cases geminiResult net with
  | error e => exact catchPipeline_broadcasts e
  | ok t =>
    intro m hm
    simp at hm ⊢
    subst hm
    exact ⟨rfl, Or.inr (Or.inr (Or.inl ⟨_, _, rfl⟩))⟩

theorem segment_broadcasts (bg : Background) (ev : Event) (r : Option Nat) (s : Step)
    (h : segment bg ev = some (r, s)) : BroadcastsState s := by
  cases ev with
  | installed =>
    simp [segment] at h
    obtain ⟨_, rfl⟩ := h
    intro m hm
    simp at hm
  | clicked info =>
    simp [segment] at h
    obtain ⟨_, rfl⟩ := h
    exact onClicked_broadcasts _ _
  | storageDone run o =>
    simp only [segment] at h
    split at h
    · simp at h
      obtain ⟨_, rfl⟩ := h
      exact storageCallback_broadcasts _ _ _
    · simp at h
  | fetchDone run o =>
    simp only [segment] at h
    split at h
    · simp at h
      obtain ⟨_, rfl⟩ := h
      exact afterResume_broadcasts _ _ _ _
    · simp at h
      obtain ⟨_, rfl⟩ := h
      exact afterCover_broadcasts _ _
    · simp at h
  | message request =>
    simp only [segment] at h
    split at h
    · next effects heq =>
      simp at h
      obtain ⟨_, rfl⟩ := h
      intro m hm
      simp only at hm
      unfold onMessage at heq
      cases hp : prop request "type" with
      | error e => simp [hp, bind, Except.bind] at heq
      | ok type =>
        simp only [hp, bind, Except.bind, pure, Except.pure] at heq
        split at heq <;> simp at heq <;> subst heq <;> simp at hm
    · simp at h

theorem step_of_segment (bg : Background) (ev : Event) (r : Option Nat) (s : Step)
    (h : segment bg ev = some (r, s)) :
    (step bg ev).lastKnownState = s.state ∧ (step bg ev).effects = bg.effects ++ s.effects ∧
      stepEffects bg ev = s.effects := by
  unfold step stepEffects
  rw [h]
  cases r <;> simp

theorem step_effects (bg : Background) (ev : Event) :
    (step bg ev).effects = bg.effects ++ stepEffects bg ev := by
  cases h : segment bg ev with
  | none => simp [step, stepEffects, h]
  | some p => exact (step_of_segment bg ev p.1 p.2 h).2.1.trans (by simp [stepEffects, h])

theorem step_pull (bg : Background) :
    step bg (.message (some pullRequest)) =
      { bg with effects := bg.effects ++ [.sendResponse bg.lastKnownState] } := by
  rfl

theorem run_messages_state (pulls : List Event) (bg : Background)
    (h : ∀ p ∈ pulls, ∃ request, p = .message request) :
    (run bg pulls).lastKnownState = bg.lastKnownState := by
  induction pulls generalizing bg with
  | nil => rfl
  | cons p rest ih =>
    obtain ⟨request, rfl⟩ := h p (List.mem_cons_self _ _)
    have hstep : (step bg (.message request)).lastKnownState = bg.lastKnownState := by
      unfold step segment
      cases hm : onMessage request bg.lastKnownState <;> simp only [hm]
    show (run (step bg (.message request)) rest).lastKnownState = _
    rw [ih _ (fun q hq => h q (List.mem_cons_of_mem _ hq)), hstep]

theorem run_broadcasts_variants (evs : List Event) (bg : Background)
    (h : ∀ m, Effect.sendMessage m ∈ bg.effects → IsVariant m) :
    ∀ m, Effect.sendMessage m ∈ (run bg evs).effects → IsVariant m := by
  induction evs generalizing bg with
  | nil => exact h
  | cons ev rest ih =>
    apply ih (step bg ev)
    intro m hm
    rw [step_effects] at hm
    rcases List.mem_append.mp hm with hm | hm
    · exact h m hm
    · cases hs : segment bg ev with
      | none => simp [stepEffects, hs] at hm
      | some p =>
        have := segment_broadcasts bg ev p.1 p.2 hs
        simp only [stepEffects, hs] at hm
        exact (this m hm).2

theorem startCall_next (apiKey : JSVal) (promptText : String) (next : Pending) (st : Json) :
    (startCall apiKey promptText next st).next = none ∨
      (startCall apiKey promptText next st).next = some next := by
  unfold startCall
  cases geminiRequest apiKey promptText <;> simp [catchPipeline]

theorem onClicked_next (info : OnClickData) (st : Json) :
    (onClicked info st).next = none ∨ ∃ sel, (onClicked info st).next = some (.storage sel) := by
  unfold onClicked
  split
  · exact Or.inl rfl
  · split
    · exact Or.inl rfl
    · exact Or.inl rfl
    · exact Or.inr ⟨_, rfl⟩

theorem storageCallback_next (selection : String) (o : StorageOutcome) (st : Json) :
    (storageCallback selection o st).next = none ∨
      ∃ apiKey prompt, (storageCallback selection o st).next = some (.resume apiKey prompt) := by
  cases o with
  | failed message => exact Or.inl rfl
  | items items =>
    unfold storageCallback
    simp only
    split
    · exact Or.inl rfl
    · rcases startCall_next (items.lookup "geminiApiKey") resumePrompt
        (.resume (items.lookup "geminiApiKey") coverLetterPrompt) st with h | h
      · exact Or.inl h
      · exact Or.inr ⟨_, _, h⟩

theorem afterResume_next (apiKey : JSVal) (prompt : String) (net : FetchOutcome) (st : Json) :
    (afterResume apiKey prompt net st).next = none ∨
      ∃ t, (afterResume apiKey prompt net st).next = some (.cover t) := by
  unfold afterResume
  cases geminiResult net with
  | error e => exact Or.inl rfl
  | ok t =>
    rcases startCall_next apiKey prompt (.cover t) st with h | h
    · exact Or.inl h
    · exact Or.inr ⟨_, h⟩

/-- The machine run on one click and the completions of that invocation, from a state in which
no invocation is suspended, does what `handlerRun` says. -/
theorem run_single_click (bg : Background) (hp : bg.pending = []) (info : OnClickData)
    (storage : StorageOutcome) (net1 net2 : FetchOutcome) :
    (run bg [.clicked info, .storageDone bg.nextRun storage, .fetchDone bg.nextRun net1,
        .fetchDone bg.nextRun net2]).lastKnownState =
      (handlerRun info storage net1 net2 bg.lastKnownState).1 ∧
    (run bg [.clicked info, .storageDone bg.nextRun storage, .fetchDone bg.nextRun net1,
        .fetchDone bg.nextRun net2]).effects =
      bg.effects ++ (handlerRun info storage net1 net2 bg.lastKnownState).2 ∧
    (run bg [.clicked info, .storageDone bg.nextRun storage, .fetchDone bg.nextRun net1,
        .fetchDone bg.nextRun net2]).pending = [] := by
  obtain ⟨st, pending, n, effects⟩ := bg
  simp only at hp
  subst hp
  simp only [run, List.foldl, handlerRun]
  rcases onClicked_next info st with h1 | ⟨sel, h1⟩
  · simp [step, segment, h1]
  · rcases storageCallback_next sel storage (onClicked info st).state with h2 | ⟨apiKey, prompt, h2⟩
    · simp [step, segment, h1, h2]
    · rcases afterResume_next apiKey prompt net1 (storageCallback sel storage (onClicked info st).state).state
        with h3 | ⟨t, h3⟩
      · simp [step, segment, h1, h2, h3]
      · simp [step, segment, h1, h2, h3, (afterCover_effects t net2).2]

theorem lastBroadcast_append_quiet (l e : List Effect)
    (h : ∀ m, Effect.sendMessage m ∉ e) : lastBroadcast (l ++ e) = lastBroadcast l := by
  have he : e.filterMap Effect.broadcastOf = [] := by
    rw [List.filterMap_eq_nil_iff]
    intro x hx
    cases x <;> simp [Effect.broadcastOf]
    exact h _ hx
  simp [lastBroadcast, List.filterMap_append, he]

theorem lastBroadcast_append_state (l e : List Effect) (st : Json)
    (hall : ∀ m, Effect.sendMessage m ∈ e → m = st) (hex : ∃ m, Effect.sendMessage m ∈ e) :
    lastBroadcast (l ++ e) = some st := by
  obtain ⟨m, hm⟩ := hex
  have hmem : m ∈ e.filterMap Effect.broadcastOf :=
    List.mem_filterMap.mpr ⟨_, hm, rfl⟩
  have hne : e.filterMap Effect.broadcastOf ≠ [] := List.ne_nil_of_mem hmem
  have hlast : (e.filterMap Effect.broadcastOf).getLast hne = st := by
    have := List.getLast_mem hne
    obtain ⟨x, hx, hbx⟩ := List.mem_filterMap.mp this
    cases x with
    | sendMessage m' =>
      have hm' : m' = (e.filterMap Effect.broadcastOf).getLast hne := Option.some.inj hbx
      rw [← hm']
      exact hall _ hx
    | _ => exact Option.noConfusion hbx
  simp only [lastBroadcast, List.filterMap_append]
  rw [List.getLast?_append_of_ne_nil _ hne, List.getLast?_eq_getLast _ hne, hlast]

theorem startCall_state (apiKey : JSVal) (promptText : String) (next : Pending) (st : Json) :
    (startCall apiKey promptText next st).state = st ∨
      ∃ m, Effect.sendMessage m ∈ (startCall apiKey promptText next st).effects := by
  unfold startCall
  cases geminiRequest apiKey promptText with
  | error err => exact Or.inr ⟨_, List.mem_cons_of_mem _ (List.mem_cons_self _ _)⟩
  | ok request => exact Or.inl rfl

theorem onClicked_state (info : OnClickData) (st : Json) :
    (onClicked info st).state = st ∨ ∃ m, Effect.sendMessage m ∈ (onClicked info st).effects := by
  unfold onClicked
  split
  · exact Or.inl rfl
  · split
    · exact Or.inr ⟨_, List.mem_cons_self _ _⟩
    · exact Or.inr ⟨_, List.mem_cons_self _ _⟩
    · exact Or.inr ⟨_, List.mem_cons_self _ _⟩

theorem storageCallback_state (selection : String) (o : StorageOutcome) (st : Json) :
    (storageCallback selection o st).state = st ∨
      ∃ m, Effect.sendMessage m ∈ (storageCallback selection o st).effects := by
  cases o with
  | failed message => exact Or.inr ⟨_, List.mem_cons_self _ _⟩
  | items items =>
    unfold storageCallback
    simp only
    split
    · exact Or.inr ⟨_, List.mem_cons_self _ _⟩
    · exact startCall_state _ _ _ _

theorem afterResume_state (apiKey : JSVal) (prompt : String) (net : FetchOutcome) (st : Json) :
    (afterResume apiKey prompt net st).state = st ∨
      ∃ m, Effect.sendMessage m ∈ (afterResume apiKey prompt net st).effects := by
  unfold afterResume
  cases geminiResult net with
  | error e => exact Or.inr ⟨_, List.mem_cons_self _ _⟩
  | ok t => exact startCall_state _ _ _ _

theorem segment_quiet (bg : Background) (ev : Event) (r : Option Nat) (s : Step)
    (hev : ev ≠ .installed) (h : segment bg ev = some (r, s))
    (hq : ∀ m, Effect.sendMessage m ∉ s.effects) : s.state = bg.lastKnownState := by
  have hor : s.state = bg.lastKnownState ∨ ∃ m, Effect.sendMessage m ∈ s.effects := by
    cases ev with
    | installed => exact absurd rfl hev
    | clicked info =>
      simp [segment] at h
      obtain ⟨_, rfl⟩ := h
      exact onClicked_state _ _
    | storageDone run o =>
      simp only [segment] at h
      split at h
      · simp at h
        obtain ⟨_, rfl⟩ := h
        exact storageCallback_state _ _ _
      · simp at h
    | fetchDone run o =>
      simp only [segment] at h
      split at h
      · simp at h
        obtain ⟨_, rfl⟩ := h
        exact afterResume_state _ _ _ _
      · simp at h
        obtain ⟨_, rfl⟩ := h
        right
        rw [(afterCover_effects _ _).1]
        exact ⟨_, List.mem_cons_self _ _⟩
      · simp at h
    | message request =>
      simp only [segment] at h
      split at h
      · simp at h
        obtain ⟨_, rfl⟩ := h
        exact Or.inl rfl
      · simp at h
  rcases hor with h1 | ⟨m, hm⟩
  · exact h1
  · exact absurd hm (hq m)

theorem step_tracks_broadcast (bg : Background) (ev : Event) (hev : ev ≠ .installed) :
    lastBroadcast (step bg ev).effects = some (step bg ev).lastKnownState ∨
      (lastBroadcast (step bg ev).effects = lastBroadcast bg.effects ∧
        (step bg ev).lastKnownState = bg.lastKnownState) := by
  cases hs : segment bg ev with
  | none =>
    right
    simp [step, hs]
  | some p =>
    obtain ⟨hstate, heff, _⟩ := step_of_segment bg ev p.1 p.2 hs
    by_cases hex : ∃ m, Effect.sendMessage m ∈ p.2.effects
    · left
      rw [heff, hstate]
      exact lastBroadcast_append_state _ _ _
        (fun m hm => (segment_broadcasts bg ev p.1 p.2 hs m hm).1) hex
    · right
      have hq : ∀ m, Effect.sendMessage m ∉ p.2.effects := fun m hm => hex ⟨m, hm⟩
      rw [heff, hstate]
      exact ⟨lastBroadcast_append_quiet _ _ hq, segment_quiet bg ev p.1 p.2 hev hs hq⟩

theorem run_tracks_broadcast (mid : List Event) (bg : Background)
    (hmid : Event.installed ∉ mid)
    (h : lastBroadcast bg.effects = some bg.lastKnownState) :
    lastBroadcast (run bg mid).effects = some (run bg mid).lastKnownState := by
  induction mid generalizing bg with
  | nil => exact h
  | cons ev rest ih =>
    have hev : ev ≠ .installed := fun he => hmid (he ▸ List.mem_cons_self _ _)
    apply ih (step bg ev) (fun hr => hmid (List.mem_cons_of_mem _ hr))
    rcases step_tracks_broadcast bg ev hev with h1 | ⟨h1, h2⟩
    · exact h1
    · rw [h1, h2, h]

theorem run_tracks_initial (evs : List Event) (bg : Background) (d : Json)
    (hevs : Event.installed ∉ evs)
    (h : bg.lastKnownState = (lastBroadcast bg.effects).getD d) :
    (run bg evs).lastKnownState = (lastBroadcast (run bg evs).effects).getD d := by
  induction evs generalizing bg with
  | nil => exact h
  | cons ev rest ih =>
    have hev : ev ≠ .installed := fun he => hevs (he ▸ List.mem_cons_self _ _)
    apply ih (step bg ev) (fun hr => hevs (List.mem_cons_of_mem _ hr))
    rcases step_tracks_broadcast bg ev hev with h1 | ⟨h1, h2⟩
    · rw [h1]
      rfl
    · rw [h1, h2, h]

set_option exponentiation.threshold 2000 in
/-- The conversion of numeric strings at and around the point where values round to zero: the
least positive Number is printed `5e-324`, and half of it lies between the two 17-digit
literals below. -/
theorem stringPositive_rounding :
    stringPositive "1e-400" = false ∧ stringPositive "5e-324" = true ∧
    stringPositive "2.4703282292062327e-324" = false ∧
    stringPositive "2.4703282292062328e-324" = true ∧
    stringPositive "0.5" = true ∧ stringPositive "1e999" = true ∧
    stringPositive " 12 " = true ∧ stringPositive "0x1F" = true ∧
    stringPositive "-1" = false ∧ stringPositive "" = false ∧ stringPositive "12px" = false ∧
    callGeminiAPI (some (.str "k")) resumePrompt (okResponse tinyLengthBody) =
      .error ⟨.Error, "Unable to extract valid content from Gemini response."⟩ :=
  ⟨rfl, rfl, rfl, rfl, rfl, rfl, rfl, rfl, rfl, rfl, rfl, rfl⟩

theorem hasItems_str (t : String) : HasItems (some (.str t)) ↔ t ≠ "" := by
  have hlen : utf16Length t = 0 ↔ t = "" := by
    unfold utf16Length
    constructor
    · intro h
      have hd : t.data = [] := by
        cases hdata : t.data with
        | nil => rfl
        | cons c rest =>
          rw [hdata] at h
          simp only [List.map_cons, List.sum_cons] at h
          split at h <;> omega
      exact String.ext hd
    · rintro rfl
      rfl
  by_cases ht : t = ""
  · subst ht
    have h0 : utf16Length "" = 0 := rfl
    simp [HasItems, nullish, len, gtZero, JSNumber.ofNat, h0]
  · have hne : utf16Length t ≠ 0 := fun h => ht (hlen.mp h)
    simp [HasItems, nullish, len, gtZero, JSNumber.ofNat, hne, ht]

/-! ## The context-menu handler -/

/-- C1: a click on the registered item whose selection is absent, empty or made of white space
only ends the handler at once: the state becomes the "No text was selected" error, that state
is the single effect of the run (so there is no loading broadcast, no storage read, no call of
`callGeminiAPI` and no request), and no continuation is left. -/
theorem blank_selection_stops_with_error (info : OnClickData) (storage : StorageOutcome)
    (net1 net2 : FetchOutcome) (st : Json)
    (hid : info.menuItemId = .str "aiJobHelper")
    (hsel : ∀ s, info.selectionText = some s → Blank s) :
    noSelectionState = .obj [("type", .str "SHOW_RESULTS_ERROR"), ("message",
      .str "No text was selected. Please highlight a job description and try again.")] ∧
    handlerRun info storage net1 net2 st = (noSelectionState, [.sendMessage noSelectionState]) ∧
    (onClicked info st).next = none ∧
    ∀ bg : Background, step bg (.clicked info) =
      { bg with lastKnownState := noSelectionState
                effects := bg.effects ++ [.sendMessage noSelectionState] } := by
  refine ⟨rfl, ?_, ?_, ?_⟩
  · unfold handlerRun
    rw [onClicked_blank info st hid hsel]
  · rw [onClicked_blank info st hid hsel]
  · intro bg
    simp [step, segment, onClicked_blank info _ hid hsel]

theorem blank_selection_stops_with_error_witness :
    handlerRun ⟨.str "aiJobHelper", some " \t\n"⟩ (.items sampleItems)
      (okResponse (textBody "R")) (okResponse (textBody "C")) initialState =
        (noSelectionState, [.sendMessage noSelectionState]) :=
  (blank_selection_stops_with_error ⟨.str "aiJobHelper", some " \t\n"⟩ (.items sampleItems)
    (okResponse (textBody "R")) (okResponse (textBody "C")) initialState rfl
    (fun s h => by cases h; unfold Blank; decide)).2.1

/-- C2: a click on the registered item with a selection that is not blank, a storage read
without error that yields truthy `geminiApiKey` and `userResume` (non-empty strings are), and
two calls of `callGeminiAPI` returning `r` and then `c`, leaves as stored state and as last
broadcast exactly the `SHOW_RESULTS` object with `tailoredResume = r` and `coverLetter = c`. -/
theorem both_calls_succeed_gives_results (info : OnClickData) (items : List (String × Json))
    (net1 net2 : FetchOutcome) (st : Json) (s r c : String)
    (hid : info.menuItemId = .str "aiJobHelper")
    (hsel : info.selectionText = some s) (hs : ¬ Blank s)
    (hk : truthy (items.lookup "geminiApiKey") = true)
    (hr : truthy (items.lookup "userResume") = true)
    (h1 : callGeminiAPI (items.lookup "geminiApiKey") resumePrompt net1 = .ok r)
    (h2 : callGeminiAPI (items.lookup "geminiApiKey") coverLetterPrompt net2 = .ok c) :
    (handlerRun info (.items items) net1 net2 st).1 =
      .obj [("type", .str "SHOW_RESULTS"),
        ("payload", .obj [("tailoredResume", .str r), ("coverLetter", .str c)])] ∧
    lastBroadcast (handlerRun info (.items items) net1 net2 st).2 =
      some (.obj [("type", .str "SHOW_RESULTS"),
        ("payload", .obj [("tailoredResume", .str r), ("coverLetter", .str c)])]) := by
  obtain ⟨request, _, request2, hq2, hrun⟩ :=
    handlerRun_second info items net1 net2 st s r hid hsel hs hk hr h1
  rw [geminiResult_of_call hq2] at h2
  have hc : afterCover r net2 = ⟨resultsState r c, [.sendMessage (resultsState r c)], none⟩ := by
    simp [afterCover, h2]
  rw [hrun, hc]
  refine ⟨rfl, ?_⟩
  exact lastBroadcast_append_send _ _

theorem both_calls_succeed_gives_results_witness :
    (handlerRun sampleClick (.items sampleItems) (okResponse (textBody "R"))
      (okResponse (textBody "C")) initialState).1 =
      .obj [("type", .str "SHOW_RESULTS"),
        ("payload", .obj [("tailoredResume", .str "R"), ("coverLetter", .str "C")])] :=
  (both_calls_succeed_gives_results sampleClick sampleItems (okResponse (textBody "R"))
    (okResponse (textBody "C")) initialState _ "R" "C" rfl rfl (by unfold Blank; decide)
    rfl rfl rfl rfl).1

/-- C3: in a run that reaches the generate step, when the first call of `callGeminiAPI` fails
with an error `e`, the run contains exactly one invocation of `callGeminiAPI`, at most one
request, and ends with the `SHOW_RESULTS_ERROR` state whose message is `An error occurred: `
followed by `e.message`, stored and broadcast last; when the first call returns and the second
fails with `e`, the run ends in the same error state and never broadcasts `SHOW_RESULTS`. -/
theorem api_failure_gives_error (info : OnClickData) (items : List (String × Json))
    (net1 net2 : FetchOutcome) (st : Json) (s : String) (e : JSError)
    (hid : info.menuItemId = .str "aiJobHelper")
    (hsel : info.selectionText = some s) (hs : ¬ Blank s)
    (hk : truthy (items.lookup "geminiApiKey") = true)
    (hr : truthy (items.lookup "userResume") = true) :
    (callGeminiAPI (items.lookup "geminiApiKey") resumePrompt net1 = .error e →
      (handlerRun info (.items items) net1 net2 st).1 =
        .obj [("type", .str "SHOW_RESULTS_ERROR"),
          ("message", .str ("An error occurred: " ++ e.message))] ∧
      lastBroadcast (handlerRun info (.items items) net1 net2 st).2 =
        some (handlerRun info (.items items) net1 net2 st).1 ∧
      (handlerRun info (.items items) net1 net2 st).2.countP Effect.isCall = 1 ∧
      (handlerRun info (.items items) net1 net2 st).2.countP Effect.isFetch ≤ 1) ∧
    (∀ r, callGeminiAPI (items.lookup "geminiApiKey") resumePrompt net1 = .ok r →
      callGeminiAPI (items.lookup "geminiApiKey") coverLetterPrompt net2 = .error e →
      (handlerRun info (.items items) net1 net2 st).1 =
        .obj [("type", .str "SHOW_RESULTS_ERROR"),
          ("message", .str ("An error occurred: " ++ e.message))] ∧
      lastBroadcast (handlerRun info (.items items) net1 net2 st).2 =
        some (handlerRun info (.items items) net1 net2 st).1 ∧
      ∀ a b, Effect.sendMessage (resultsState a b) ∉
        (handlerRun info (.items items) net1 net2 st).2) := by
  constructor
  · intro h1
    obtain ⟨requests, hreq, hlen, hrun⟩ :=
      handlerRun_first_fails info items net1 net2 st s e hid hsel hs hk hr h1
    rw [hrun]
    refine ⟨rfl, lastBroadcast_append_send _ _, ?_, ?_⟩
    · simp [List.countP_append, List.countP_cons, Effect.isCall, countP_isCall_fetches requests hreq]
    · have := List.countP_le_length Effect.isFetch (l := requests)
      simp [List.countP_append, List.countP_cons, Effect.isFetch]
      omega
  · intro r h1 h2
    obtain ⟨request, _, request2, hq2, hrun⟩ :=
      handlerRun_second info items net1 net2 st s r hid hsel hs hk hr h1
    rw [geminiResult_of_call hq2] at h2
    have hc : afterCover r net2 = catchPipeline e := by
      simp [afterCover, h2]
    rw [hrun, hc]
    refine ⟨rfl, lastBroadcast_append_send _ _, ?_⟩
    intro a b
    simp [catchPipeline, loadingState, resultsState, errorState]

theorem api_failure_gives_error_witness :
    (handlerRun sampleClick (.items sampleItems) failedFetch (okResponse (textBody "C"))
        initialState).1 =
      .obj [("type", .str "SHOW_RESULTS_ERROR"),
        ("message", .str "An error occurred: Failed to fetch")] ∧
    (handlerRun sampleClick (.items sampleItems) failedFetch (okResponse (textBody "C"))
        initialState).2.countP Effect.isCall = 1 ∧
    (handlerRun sampleClick (.items sampleItems) (okResponse (textBody "R")) serverError
        initialState).1 =
      .obj [("type", .str "SHOW_RESULTS_ERROR"),
        ("message", .str "An error occurred: API request failed (status 500): boom")] :=
  ⟨((api_failure_gives_error sampleClick sampleItems failedFetch (okResponse (textBody "C"))
      initialState _ ⟨.TypeError, "Failed to fetch"⟩ rfl rfl (by unfold Blank; decide)
      rfl rfl).1 rfl).1,
   ((api_failure_gives_error sampleClick sampleItems failedFetch (okResponse (textBody "C"))
      initialState _ ⟨.TypeError, "Failed to fetch"⟩ rfl rfl (by unfold Blank; decide)
      rfl rfl).1 rfl).2.2.1,
   ((api_failure_gives_error sampleClick sampleItems (okResponse (textBody "R")) serverError
      initialState _ ⟨.Error, "API request failed (status 500): boom"⟩ rfl rfl
      (by unfold Blank; decide) rfl rfl).2 "R" rfl rfl).1⟩

/-- C4: after a click on the registered item with a selection that is not blank and a storage
read without error, if `geminiApiKey` or `userResume` is falsy in the items read (absent, or the
empty string), the run ends in the "not configured" `SHOW_RESULTS_ERROR` state, stored and
broadcast, opens the options page exactly once and never invokes `callGeminiAPI`; if both are
truthy (non-empty strings are), the options page is not opened, whatever the requests return. -/
theorem missing_settings_open_options (info : OnClickData) (items : List (String × Json))
    (net1 net2 : FetchOutcome) (st : Json) (s : String)
    (hid : info.menuItemId = .str "aiJobHelper")
    (hsel : info.selectionText = some s) (hs : ¬ Blank s) :
    (truthy (items.lookup "geminiApiKey") = false ∨ truthy (items.lookup "userResume") = false →
      handlerRun info (.items items) net1 net2 st =
        (.obj [("type", .str "SHOW_RESULTS_ERROR"),
            ("message", .str "API key or resume not configured. Opening settings now.")],
          [.sendMessage (.obj [("type", .str "SHOW_LOADING"),
              ("message", .str "Generating tailored content...")]),
            .storageGet ["geminiApiKey", "userResume"],
            .sendMessage (.obj [("type", .str "SHOW_RESULTS_ERROR"),
              ("message", .str "API key or resume not configured. Opening settings now.")]),
            .openOptionsPage])) ∧
    (truthy (items.lookup "geminiApiKey") = true ∧ truthy (items.lookup "userResume") = true →
      Effect.openOptionsPage ∉ (handlerRun info (.items items) net1 net2 st).2) := by
  constructor
  · intro h
    unfold handlerRun
    rw [onClicked_selection info st s hid hsel hs]
    simp only [storageCallback_missing _ _ _ h]
    rfl
  · rintro ⟨hk, hr⟩
    cases h1 : callGeminiAPI (items.lookup "geminiApiKey") resumePrompt net1 with
    | error e =>
      obtain ⟨requests, hreq, _, hrun⟩ :=
        handlerRun_first_fails info items net1 net2 st s e hid hsel hs hk hr h1
      rw [hrun]
      simp only [List.mem_append, List.mem_cons, List.mem_singleton, not_or]
      simp only [reduceCtorEq, not_false_eq_true, List.not_mem_nil, and_true, true_and]
      intro hmem
      have := hreq _ hmem
      simp [Effect.isFetch] at this
    | ok r =>
      obtain ⟨request, _, request2, _, hrun⟩ :=
        handlerRun_second info items net1 net2 st s r hid hsel hs hk hr h1
      rw [hrun, (afterCover_effects r net2).1]
      simp

theorem missing_settings_open_options_witness :
    handlerRun sampleClick (.items [("geminiApiKey", .str "k")]) failedFetch failedFetch
        initialState =
      (.obj [("type", .str "SHOW_RESULTS_ERROR"),
          ("message", .str "API key or resume not configured. Opening settings now.")],
        [.sendMessage (.obj [("type", .str "SHOW_LOADING"),
            ("message", .str "Generating tailored content...")]),
          .storageGet ["geminiApiKey", "userResume"],
          .sendMessage (.obj [("type", .str "SHOW_RESULTS_ERROR"),
            ("message", .str "API key or resume not configured. Opening settings now.")]),
          .openOptionsPage]) ∧
    Effect.openOptionsPage ∉
      (handlerRun sampleClick (.items sampleItems) failedFetch failedFetch initialState).2 :=
  ⟨(missing_settings_open_options sampleClick [("geminiApiKey", .str "k")] failedFetch
      failedFetch initialState _ rfl rfl (by unfold Blank; decide)).1 (Or.inr rfl),
   (missing_settings_open_options sampleClick sampleItems failedFetch failedFetch initialState _
      rfl rfl (by unfold Blank; decide)).2 ⟨rfl, rfl⟩⟩

/-! ## The API client -/

/-- C5, the claim as stated fails: a 2xx body that has `promptFeedback.blockReason = "SAFETY"`
and also a candidate text makes `callGeminiAPI` return the text, and the handler end in
`SHOW_RESULTS`; and a body whose `safetyRatings` is not an array makes it throw a `TypeError`
instead of the prompt-blocked error. -/
theorem blocked_reason_not_always_raised :
    blockReasonOf (some blockedWithText) = .ok (some (.str "SAFETY")) ∧
    callGeminiAPI (some (.str "k")) resumePrompt (okResponse blockedWithText) = .ok "hi" ∧
    (handlerRun sampleClick (.items sampleItems) (okResponse blockedWithText)
      (okResponse blockedWithText) initialState).1 = resultsState "hi" "hi" ∧
    blockReasonOf (some blockedOddRatings) = .ok (some (.str "SAFETY")) ∧
    (callGeminiAPI (some (.str "k")) resumePrompt (okResponse blockedOddRatings)).toOption = none ∧
    callGeminiAPI (some (.str "k")) resumePrompt (okResponse blockedOddRatings) ≠
      .error ⟨.Error, "AI prompt blocked for reason: SAFETY"⟩ := by
  refine ⟨rfl, rfl, rfl, rfl, rfl, ?_⟩
  intro h
  have : callGeminiAPI (some (.str "k")) resumePrompt (okResponse blockedOddRatings) =
      .error ⟨.TypeError, "data.promptFeedback.safetyRatings?.map is not a function"⟩ := rfl
  rw [this] at h
  simp at h

/-- C5 (amended): for a 2xx response whose JSON body carries no text at
`candidates[0].content.parts[0]`, has `promptFeedback.blockReason` equal to a non-empty string
`reason`, and whose safety ratings can be printed, `callGeminiAPI` throws the `Error` with
message `AI prompt blocked for reason: ` followed by `reason`; and a handler run in which the
first call, or the second after a successful first, receives that response ends in
`SHOW_RESULTS_ERROR` with a message that contains `reason`. -/
theorem blocked_prompt_raises (k promptText : String) (r : Response) (data : Json)
    (reason : String) (hok : r.ok = true) (hjson : r.json = .ok data)
    (hblock : blockReasonOf (some data) = .ok (some (.str reason))) (hne : reason ≠ "")
    (htext : NoText data) (hratings : RatingsPrintable data) :
    callGeminiAPI (some (.str k)) promptText (.resolved r) =
      .error ⟨.Error, "AI prompt blocked for reason: " ++ reason⟩ ∧
    ∀ (info : OnClickData) (items : List (String × Json)) (other : FetchOutcome) (st : Json)
      (s : String), info.menuItemId = .str "aiJobHelper" → info.selectionText = some s →
      ¬ Blank s → items.lookup "geminiApiKey" = some (.str k) → k ≠ "" →
      truthy (items.lookup "userResume") = true →
      Contains ("An error occurred: AI prompt blocked for reason: " ++ reason) reason ∧
      (handlerRun info (.items items) (.resolved r) other st).1 =
        .obj [("type", .str "SHOW_RESULTS_ERROR"),
          ("message", .str ("An error occurred: AI prompt blocked for reason: " ++ reason))] ∧
      ((∃ t, callGeminiAPI (some (.str k)) resumePrompt other = .ok t) →
        (handlerRun info (.items items) other (.resolved r) st).1 =
          .obj [("type", .str "SHOW_RESULTS_ERROR"),
            ("message", .str ("An error occurred: AI prompt blocked for reason: " ++ reason))]) := by
  have hcall : ∀ p, callGeminiAPI (some (.str k)) p (.resolved r) =
      .error ⟨.Error, "AI prompt blocked for reason: " ++ reason⟩ := by
    intro p
    obtain ⟨pf, text, hpf, hrt⟩ := hratings
    obtain ⟨request, hq⟩ := geminiRequest_str k p
    rw [geminiResult_of_call hq]
    simp [geminiResult, hok, hjson, bind, Except.bind,
      readBody_blocked data reason pf text htext hblock hne hpf hrt]
  refine ⟨hcall promptText, ?_⟩
  intro info items other st s hid hsel hs hkey hk hr
  have hkt : truthy (items.lookup "geminiApiKey") = true := by simp [hkey, truthy, hk]
  refine ⟨⟨"An error occurred: AI prompt blocked for reason: ", "", by simp⟩, ?_, ?_⟩
  · exact (handlerRun_failure_state info items (.resolved r) other st s _ hid hsel hs hkt hr
      (Or.inl (by rw [hkey]; exact hcall _))).1
  · rintro ⟨t, ht⟩
    exact (handlerRun_failure_state info items other (.resolved r) st s _ hid hsel hs hkt hr
      (Or.inr ⟨t, by rw [hkey]; exact ht, by rw [hkey]; exact hcall _⟩)).1

theorem blocked_prompt_raises_witness :
    callGeminiAPI (some (.str "k")) resumePrompt (okResponse blockedBody) =
      .error ⟨.Error, "AI prompt blocked for reason: SAFETY"⟩ ∧
    (handlerRun sampleClick (.items sampleItems) (okResponse blockedBody) failedFetch
        initialState).1 =
      .obj [("type", .str "SHOW_RESULTS_ERROR"),
        ("message", .str "An error occurred: AI prompt blocked for reason: SAFETY")] :=
  ⟨(blocked_prompt_raises "k" resumePrompt ⟨200, "OK", .ok blockedBody⟩ blockedBody "SAFETY"
      rfl rfl rfl (by decide) rfl ⟨_, _, rfl, rfl⟩).1,
   ((blocked_prompt_raises "k" resumePrompt ⟨200, "OK", .ok blockedBody⟩ blockedBody "SAFETY"
      rfl rfl rfl (by decide) rfl ⟨_, _, rfl, rfl⟩).2 sampleClick sampleItems failedFetch
      initialState _ rfl rfl (by unfold Blank; decide) rfl (by decide) rfl).2.1⟩

/-- C7, the claim as stated fails: `callGeminiAPI` also returns a text when `candidates` is not
an array but an object that has a `length` greater than zero and a property `0`. -/
theorem returns_text_without_array :
    prop (some arrayLikeBody) "candidates" = .ok (some (.obj [("length", .num (.ofNat 1)),
      ("0", .obj [("content", .obj [("parts", .arr [.obj [("text", .str "hi")]])])])])) ∧
    (¬ ∃ items, prop (some arrayLikeBody) "candidates" = .ok (some (.arr items))) ∧
    callGeminiAPI (some (.str "k")) resumePrompt (okResponse arrayLikeBody) = .ok "hi" := by
  refine ⟨rfl, ?_, rfl⟩
  rintro ⟨items, h⟩
  simp [prop, arrayLikeBody, List.lookup] at h

/-- C7 (amended): `callGeminiAPI` (called with a string key) returns `t` exactly when the
response is 2xx and its JSON body carries `t` as the string
`candidates[0].content.parts[0].text`, where `candidates` and `parts` are values with items
(non-empty arrays, or other values whose `length` compares greater than zero); the text is
returned unmodified, the empty string included; in every other case it throws. In particular
it returns the text when `candidates` and `parts` are non-empty arrays. A value with items is:
an array that is not empty; a string that is not empty; an object whose `length` is a number
above zero (or another value that compares above zero); never `undefined`, `null`, a boolean,
a number or an object without `length`. -/
theorem callGeminiAPI_returns_iff (k promptText : String) (net : FetchOutcome) :
    (∀ t, callGeminiAPI (some (.str k)) promptText net = .ok t ↔
      ∃ r data, net = .resolved r ∧ r.ok = true ∧ r.json = .ok data ∧ TextAt data t) ∧
    ((∃ e, callGeminiAPI (some (.str k)) promptText net = .error e) ↔
      ¬ ∃ r data t, net = .resolved r ∧ r.ok = true ∧ r.json = .ok data ∧ TextAt data t) ∧
    (∀ r data first more content part moreParts t,
      net = .resolved r → r.ok = true → r.json = .ok data →
      prop (some data) "candidates" = .ok (some (.arr (first :: more))) →
      prop (some first) "content" = .ok (some content) →
      prop (some content) "parts" = .ok (some (.arr (part :: moreParts))) →
      prop (some part) "text" = .ok (some (.str t)) →
      callGeminiAPI (some (.str k)) promptText net = .ok t) ∧
    (∀ xs : List Json, HasItems (some (.arr xs)) ↔ xs ≠ []) ∧
    (∀ t : String, HasItems (some (.str t)) ↔ t ≠ "") ∧
    (∀ (ps : List (String × Json)) (x : JSNumber), ps.lookup "length" = some (.num x) →
      (HasItems (some (.obj ps)) ↔ x.sign = .positive)) ∧
    (∀ v : JSVal,
      (v = none ∨ v = some .null ∨ (∃ b, v = some (.bool b)) ∨ (∃ x, v = some (.num x)) ∨
        ∃ ps, v = some (.obj ps) ∧ ps.lookup "length" = none) → ¬ HasItems v) := by
  obtain ⟨request, hq⟩ := geminiRequest_str k promptText
  have hiff : ∀ t, callGeminiAPI (some (.str k)) promptText net = .ok t ↔
      ∃ r data, net = .resolved r ∧ r.ok = true ∧ r.json = .ok data ∧ TextAt data t := by
    intro t
    rw [geminiResult_of_call hq]
    exact geminiResult_ok_iff net t
  refine ⟨hiff, ?_, ?_, ?_, hasItems_str, ?_, ?_⟩
  rotate_left 2
  · intro xs
    cases xs <;> simp [HasItems, nullish, len, gtZero, JSNumber.ofNat]
  · intro ps x h
    simp [HasItems, nullish, len, h, gtZero]
  · intro v h
    rcases h with rfl | rfl | ⟨b, rfl⟩ | ⟨x, rfl⟩ | ⟨ps, rfl, hps⟩ <;>
      simp [HasItems, nullish, len, gtZero, *]
  · constructor
    · rintro ⟨e, he⟩ ⟨r, data, t, h⟩
      have := (hiff t).mpr ⟨r, data, h⟩
      rw [he] at this
      simp at this
    · intro h
      cases hc : callGeminiAPI (some (.str k)) promptText net with
      | error e => exact ⟨e, rfl⟩
      | ok t =>
        obtain ⟨r, data, h'⟩ := (hiff t).mp hc
        exact absurd ⟨r, data, t, h'⟩ h
  · intro r data first more content part moreParts t hnet hok hjson hc hcontent hparts htext
    refine (hiff t).mpr ⟨r, data, hnet, hok, hjson, ?_⟩
    have hnc : nullish (some content) = false := by
      cases content <;> simp_all [prop, nullish]
    exact ⟨_, _, _, _, _, hc, ⟨rfl, _, rfl, by simp [gtZero, JSNumber.ofNat]⟩, rfl, hcontent, hnc, hparts,
      ⟨rfl, _, rfl, by simp [gtZero, JSNumber.ofNat]⟩, rfl, htext⟩

set_option exponentiation.threshold 2000 in
theorem callGeminiAPI_returns_iff_witness :
    callGeminiAPI (some (.str "k")) resumePrompt (okResponse tinyLengthBody) =
      .error ⟨.Error, "Unable to extract valid content from Gemini response."⟩ ∧
    callGeminiAPI (some (.str "k")) resumePrompt (okResponse (textBody "")) = .ok "" ∧
    (HasItems (some (.obj [("length", .num (.ofNat 1))])) ↔
      (JSNumber.ofNat 1).sign = .positive) ∧
    ¬ HasItems (some (.obj [("0", .str "x")])) :=
  ⟨rfl, (callGeminiAPI_returns_iff "k" resumePrompt (okResponse (textBody ""))).2.2.1
    ⟨200, "OK", .ok (textBody "")⟩ (textBody "")
    (.obj [("content", .obj [("parts", .arr [.obj [("text", .str "")]])])]) []
    (.obj [("parts", .arr [.obj [("text", .str "")]])]) (.obj [("text", .str "")]) [] ""
    rfl rfl rfl rfl rfl rfl rfl,
   (callGeminiAPI_returns_iff "k" resumePrompt failedFetch).2.2.2.2.2.1
    [("length", .num (.ofNat 1))] (.ofNat 1) rfl,
   (callGeminiAPI_returns_iff "k" resumePrompt failedFetch).2.2.2.2.2.2
    (some (.obj [("0", .str "x")])) (Or.inr (Or.inr (Or.inr (Or.inr ⟨_, rfl, rfl⟩))))⟩

/-- C8, the claim as stated fails: a 2xx body whose first candidate has the finish reason
`MAX_TOKENS` and also a text makes `callGeminiAPI` return the text; and a body without text
that has a block reason besides the finish reason makes it throw the prompt-blocked error. -/
theorem finish_reason_not_always_raised :
    finishReasonOf (some truncatedWithText) = .ok (some (.str "MAX_TOKENS")) ∧
    callGeminiAPI (some (.str "k")) resumePrompt (okResponse truncatedWithText) = .ok "partial" ∧
    finishReasonOf (some blockedAndHalted) = .ok (some (.str "SAFETY")) ∧
    callGeminiAPI (some (.str "k")) resumePrompt (okResponse blockedAndHalted) =
      .error ⟨.Error, "AI prompt blocked for reason: OTHER"⟩ :=
  ⟨rfl, rfl, rfl, rfl⟩

/-- C8 (amended): for a 2xx response whose JSON body carries no text at
`candidates[0].content.parts[0]` and no truthy `promptFeedback.blockReason`, and whose first
candidate has as `finishReason` a non-empty string `f` other than `STOP`, `callGeminiAPI`
throws the `Error` with message `AI generation interrupted: ` followed by `f`. -/
theorem interrupted_generation_raises (k promptText : String) (r : Response) (data : Json)
    (f : String) (blockReason : JSVal) (hok : r.ok = true) (hjson : r.json = .ok data)
    (htext : NoText data)
    (hblock : blockReasonOf (some data) = .ok blockReason) (hfalsy : truthy blockReason = false)
    (hfinish : finishReasonOf (some data) = .ok (some (.str f)))
    (hne : f ≠ "") (hstop : f ≠ "STOP") :
    callGeminiAPI (some (.str k)) promptText (.resolved r) =
      .error ⟨.Error, "AI generation interrupted: " ++ f⟩ := by
  obtain ⟨request, hq⟩ := geminiRequest_str k promptText
  rw [geminiResult_of_call hq]
  simp [geminiResult, hok, hjson, bind, Except.bind,
    readBody_interrupted data f blockReason htext hblock hfalsy hfinish hne hstop]

theorem interrupted_generation_raises_witness :
    callGeminiAPI (some (.str "k")) resumePrompt (okResponse haltedBody) =
      .error ⟨.Error, "AI generation interrupted: MAX_TOKENS"⟩ :=
  interrupted_generation_raises "k" resumePrompt ⟨200, "OK", .ok haltedBody⟩ haltedBody
    "MAX_TOKENS" none rfl rfl rfl rfl rfl rfl (by decide) (by decide)

/-! ## The prompts -/

/-- C9, as the code stands: in a run that makes both calls, each call of `callGeminiAPI`
receives the stored key and the prompt `...`, the literal of lines 142-143; the prompt contains
neither the selection nor the stored resume. -/
theorem prompts_are_placeholders :
    (handlerRun sampleClick (.items sampleItems) (okResponse (textBody "R"))
      (okResponse (textBody "C")) initialState).2.filter Effect.isCall =
      [.callGeminiAPI (some (.str "k")) "...", .callGeminiAPI (some (.str "k")) "..."] ∧
    ¬ Contains "..." "Senior Backend Engineer, 5 years Go experience..." ∧
    ¬ Contains "..." "My resume" := by
  refine ⟨rfl, ?_, ?_⟩
  · rintro ⟨before, after, h⟩
    have := congrArg String.length h
    simp only [String.length_append] at this
    have h1 : "...".length = 3 := by decide
    have h2 : "Senior Backend Engineer, 5 years Go experience...".length = 49 := by decide
    omega
  · rintro ⟨before, after, h⟩
    have := congrArg String.length h
    simp only [String.length_append] at this
    have h1 : "...".length = 3 := by decide
    have h2 : "My resume".length = 9 := by decide
    omega

/-! ## The state store -/

/-- C10: the script starts with the `INITIAL` state; after any sequence of events, every
broadcast made in reaction to the next event carries the value `lastKnownState` holds after
that reaction and is one of the four variants, and so is every broadcast ever made; the pull
request is answered with the stored value and changes nothing else; a pull made after a
broadcast, with nothing but messages in between, is answered with the state just broadcast;
a click on another menu item changes nothing and does nothing; as long as the script is not
installed anew, the stored value is at every moment the most recently broadcast state (the
`INITIAL` state before the first broadcast), also while a storage read or a request is in
flight, so that a pull made at any moment after a broadcast is answered with the most recently
broadcast state. -/
theorem state_store_invariant :
    Background.init.lastKnownState =
      .obj [("type", .str "INITIAL"),
        ("message", .str "Right-click a job description to begin.")] ∧
    (∀ (evs : List Event) (ev : Event) (m : Json),
      Effect.sendMessage m ∈ stepEffects (run Background.init evs) ev →
        m = (step (run Background.init evs) ev).lastKnownState ∧ IsVariant m) ∧
    (∀ (evs : List Event) (m : Json),
      Effect.sendMessage m ∈ (run Background.init evs).effects → IsVariant m) ∧
    (∀ bg : Background,
      step bg (.message (some pullRequest)) =
        { bg with effects := bg.effects ++ [.sendResponse bg.lastKnownState] }) ∧
    (∀ (evs : List Event) (ev : Event) (m : Json) (pulls : List Event),
      Effect.sendMessage m ∈ stepEffects (run Background.init evs) ev →
      (∀ p ∈ pulls, ∃ request, p = Event.message request) →
      stepEffects (run (step (run Background.init evs) ev) pulls) (.message (some pullRequest)) =
        [.sendResponse m]) ∧
    (∀ (bg : Background) (info : OnClickData), info.menuItemId ≠ .str "aiJobHelper" →
      step bg (.clicked info) = bg ∧ stepEffects bg (.clicked info) = []) ∧
    (∀ evs : List Event, Event.installed ∉ evs →
      (run Background.init evs).lastKnownState =
        (lastBroadcast (run Background.init evs).effects).getD
          (.obj [("type", .str "INITIAL"),
            ("message", .str "Right-click a job description to begin.")]) ∧
      stepEffects (run Background.init evs) (.message (some pullRequest)) =
        [.sendResponse ((lastBroadcast (run Background.init evs).effects).getD
          (.obj [("type", .str "INITIAL"),
            ("message", .str "Right-click a job description to begin.")]))]) ∧
    (∀ (evs : List Event) (ev : Event) (m : Json) (mid : List Event),
      Effect.sendMessage m ∈ stepEffects (run Background.init evs) ev →
      Event.installed ∉ mid →
      lastBroadcast (run (step (run Background.init evs) ev) mid).effects =
        some (run (step (run Background.init evs) ev) mid).lastKnownState ∧
      ∀ last, lastBroadcast (run (step (run Background.init evs) ev) mid).effects = some last →
        stepEffects (run (step (run Background.init evs) ev) mid) (.message (some pullRequest)) =
          [.sendResponse last]) := by
  have hstep : ∀ (bg : Background) (ev : Event) (m : Json),
      Effect.sendMessage m ∈ stepEffects bg ev →
        m = (step bg ev).lastKnownState ∧ IsVariant m := by
    intro bg ev m hm
    cases hs : segment bg ev with
    | none => simp [stepEffects, hs] at hm
    | some p =>
      obtain ⟨hstate, _, heff⟩ := step_of_segment bg ev p.1 p.2 hs
      rw [heff] at hm
      rw [hstate]
      exact segment_broadcasts bg ev p.1 p.2 hs m hm
  refine ⟨rfl, fun evs ev m hm => hstep _ ev m hm, ?_, step_pull, ?_, ?_, ?_, ?_⟩
  · intro evs
    exact run_broadcasts_variants evs Background.init (by intro m hm; simp [Background.init] at hm)
  · intro evs ev m pulls hm hpulls
    have h1 := (hstep _ ev m hm).1
    have h2 := run_messages_state pulls (step (run Background.init evs) ev) hpulls
    show [Effect.sendResponse (run (step (run Background.init evs) ev) pulls).lastKnownState] = _
    rw [h2, ← h1]
  · intro bg info hid
    have hne : strictEqStr (some info.menuItemId) "aiJobHelper" = false := by
      cases hm : info.menuItemId <;> simp_all [strictEqStr]
    simp [step, stepEffects, segment, onClicked, hne]
  · intro evs hevs
    have h := run_tracks_initial evs Background.init initialState hevs rfl
    refine ⟨h, ?_⟩
    show [Effect.sendResponse (run Background.init evs).lastKnownState] = _
    rw [h]
    rfl
  · intro evs ev m mid hm hmid
    have hfirst : lastBroadcast (step (run Background.init evs) ev).effects =
        some (step (run Background.init evs) ev).lastKnownState := by
      rw [step_effects]
      exact lastBroadcast_append_state _ _ _ (fun k hk => (hstep _ ev k hk).1) ⟨m, hm⟩
    have h := run_tracks_broadcast mid _ hmid hfirst
    refine ⟨h, ?_⟩
    intro last hlast
    rw [h] at hlast
    show [Effect.sendResponse (run (step (run Background.init evs) ev) mid).lastKnownState] = _
    rw [Option.some.inj hlast]

theorem state_store_invariant_witness :
    (run Background.init [.clicked sampleClick, .storageDone 0 (.items sampleItems),
        .message (some pullRequest)]).effects =
      [.sendMessage (.obj [("type", .str "SHOW_LOADING"),
          ("message", .str "Generating tailored content...")]),
        .storageGet ["geminiApiKey", "userResume"],
        .callGeminiAPI (some (.str "k")) "...",
        .fetch ⟨"https://generativelanguage.googleapis.com/v1beta/models/gemini-2.5-flash-preview-04-17   :generateContent?key=k",
          "POST", "application/json",
          .obj [("contents", .arr [.obj [("parts", .arr [.obj [("text", .str "...")]])]])]⟩,
        .sendResponse (.obj [("type", .str "SHOW_LOADING"),
          ("message", .str "Generating tailored content...")])] ∧
    stepEffects (run (step (run Background.init [.clicked sampleClick,
        .storageDone 0 (.items sampleItems), .fetchDone 0 (okResponse (textBody "R"))])
        (.fetchDone 0 (okResponse (textBody "C")))) []) (.message (some pullRequest)) =
      [.sendResponse (.obj [("type", .str "SHOW_RESULTS"),
        ("payload", .obj [("tailoredResume", .str "R"), ("coverLetter", .str "C")])])] ∧
    stepEffects (run (step (run Background.init [.clicked sampleClick,
        .storageDone 0 (.items sampleItems)]) (.fetchDone 0 failedFetch)) [])
        (.message (some pullRequest)) =
      [.sendResponse (.obj [("type", .str "SHOW_RESULTS_ERROR"),
        ("message", .str "An error occurred: Failed to fetch")])] ∧
    loadingState = (step (run Background.init []) (.clicked sampleClick)).lastKnownState ∧
    stepEffects (run (step (run Background.init []) (.clicked sampleClick))
        [.message none, .message (some pullRequest)]) (.message (some pullRequest)) =
      [.sendResponse loadingState] ∧
    step Background.init (.clicked ⟨.str "somethingElse", some "text"⟩) = Background.init ∧
    stepEffects (run Background.init [.clicked sampleClick, .storageDone 0 (.items sampleItems)])
        (.message (some pullRequest)) =
      [.sendResponse (.obj [("type", .str "SHOW_LOADING"),
        ("message", .str "Generating tailored content...")])] ∧
    stepEffects (run (step (run Background.init []) (.clicked sampleClick))
        [.storageDone 0 (.items sampleItems), .fetchDone 0 (okResponse (textBody "R"))])
        (.message (some pullRequest)) =
      [.sendResponse (.obj [("type", .str "SHOW_LOADING"),
        ("message", .str "Generating tailored content...")])] :=
  ⟨rfl,
   state_store_invariant.2.2.2.2.1 [.clicked sampleClick, .storageDone 0 (.items sampleItems),
     .fetchDone 0 (okResponse (textBody "R"))] (.fetchDone 0 (okResponse (textBody "C")))
     (.obj [("type", .str "SHOW_RESULTS"),
       ("payload", .obj [("tailoredResume", .str "R"), ("coverLetter", .str "C")])])
     [] (List.Mem.head _) (by intro p hp; simp at hp),
   state_store_invariant.2.2.2.2.1 [.clicked sampleClick, .storageDone 0 (.items sampleItems)]
     (.fetchDone 0 failedFetch)
     (.obj [("type", .str "SHOW_RESULTS_ERROR"),
       ("message", .str "An error occurred: Failed to fetch")])
     [] (List.Mem.head _) (by intro p hp; simp at hp),
   (state_store_invariant.2.1 [] (.clicked sampleClick) loadingState (List.Mem.head _)).1,
   state_store_invariant.2.2.2.2.1 [] (.clicked sampleClick) loadingState
     [.message none, .message (some pullRequest)] (List.Mem.head _)
     (by intro p hp; simp at hp; rcases hp with rfl | rfl <;> exact ⟨_, rfl⟩),
   (state_store_invariant.2.2.2.2.2.1 Background.init ⟨.str "somethingElse", some "text"⟩
     (by simp)).1,
   (state_store_invariant.2.2.2.2.2.2.1
     [.clicked sampleClick, .storageDone 0 (.items sampleItems)] (by simp)).2,
   (state_store_invariant.2.2.2.2.2.2.2 [] (.clicked sampleClick) loadingState
     [.storageDone 0 (.items sampleItems), .fetchDone 0 (okResponse (textBody "R"))]
     (List.Mem.head _) (by simp)).2 _ rfl⟩

/-! ## The popup renderer -/

theorem mem_classAdd (classes : List String) (token : String) : token ∈ classAdd classes token := by
  unfold classAdd
  split <;> simp_all

theorem not_mem_classRemove (classes : List String) (token : String) :
    token ∉ classRemove classes token := by
  simp [classRemove]

theorem showStatus_eq (text : String) (isError : Bool) (dom : Popup) :
    showStatus (some (.str text)) isError dom = .ok { dom with
      statusText := text
      statusClasses := classRemove
        (if isError then ["error"]
          else if text = "Processing... Please wait." then ["loading"] else []) "hidden"
      resultsClasses := classAdd dom.resultsClasses "hidden" } := by
  have hto : textContentOf (some (.str text)) = .ok text := rfl
  cases isError <;>
    simp [showStatus, hto, bind, Except.bind, pure, Except.pure, strictEqStr]

theorem showStatus_str (text : String) (isError : Bool) (dom : Popup) :
    ∃ shown, showStatus (some (.str text)) isError dom = .ok shown ∧ StatusShown shown ∧
      shown.statusText = text ∧ (isError = true → shown.statusClasses = ["error"]) ∧
      shown.tailoredResume = dom.tailoredResume ∧ shown.coverLetter = dom.coverLetter := by
  refine ⟨_, showStatus_eq text isError dom, ⟨?_, ?_⟩, rfl, ?_, rfl, rfl⟩
  · exact not_mem_classRemove _ _
  · exact fun h => h (mem_classAdd _ _)
  · intro h
    subst h
    simp [classRemove]

theorem showStatus_ok (message : JSVal) (isError : Bool) (dom shown : Popup)
    (h : showStatus message isError dom = .ok shown) : StatusShown shown := by
  unfold showStatus at h
  cases ht : textContentOf message with
  | error e => simp [ht, bind, Except.bind] at h
  | ok text =>
    simp only [ht, bind, Except.bind, pure, Except.pure, Except.ok.injEq] at h
    subst h
    exact ⟨not_mem_classRemove _ _, fun h => h (mem_classAdd _ _)⟩

theorem showResults_ok (resume coverLetter : JSVal) (dom shown : Popup)
    (h : showResults resume coverLetter dom = .ok shown) : ResultsShown shown := by
  unfold showResults at h
  cases h1 : textareaValueOf resume with
  | error e => simp [h1, bind, Except.bind] at h
  | ok a =>
    cases h2 : textareaValueOf coverLetter with
    | error e => simp [h1, h2, bind, Except.bind] at h
    | ok b =>
      simp only [h1, h2, bind, Except.bind, pure, Except.pure, Except.ok.injEq] at h
      subst h
      exact ⟨fun h => h (mem_classAdd _ _), not_mem_classRemove _ _⟩

theorem updatePopupUI_ok (state : JSVal) (dom shown : Popup)
    (h : updatePopupUI state dom = .ok shown) : oneVisible shown := by
  unfold updatePopupUI at h
  split at h
  · exact Or.inl (showStatus_ok _ _ _ _ h)
  · simp only [bind, Except.bind, pure, Except.pure] at h
    cases ht : prop state "type" with
    | error e => simp [ht] at h
    | ok type =>
      simp only [ht] at h
      split at h
      · cases hm : prop state "message" with
        | error e => simp [hm] at h
        | ok message =>
          simp only [hm] at h
          exact Or.inl (showStatus_ok _ _ _ _ h)
      · split at h
        · cases hp : prop state "payload" with
          | error e => simp [hp] at h
          | ok payload =>
            simp only [hp] at h
            split at h
            · cases h1 : prop payload "tailoredResume" with
              | error e => simp [h1] at h
              | ok a =>
                cases h2 : prop payload "coverLetter" with
                | error e => simp [h1, h2] at h
                | ok b =>
                  simp only [h1, h2] at h
                  exact Or.inr (showResults_ok _ _ _ _ h)
            · exact Or.inl (showStatus_ok _ _ _ _ h)
        · split at h
          · cases hm : prop state "message" with
            | error e => simp [hm] at h
            | ok message =>
              simp only [hm] at h
              exact Or.inl (showStatus_ok _ _ _ _ h)
          · split at h
            · cases hm : prop state "message" with
              | error e => simp [hm] at h
              | ok message =>
                simp only [hm] at h
                cases hs : showStatus (orDefault message
                    "Right-click selected job description to start.") false dom with
                | error e => simp [hs] at h
                | ok first =>
                  simp only [hs, Except.ok.injEq] at h
                  subst h
                  exact Or.inl ⟨by simp [visible], fun h => h (mem_classAdd _ _)⟩
            · exact Or.inl (showStatus_ok _ _ _ _ h)

theorem updatePopupUI_message (type : String) (message : Option String) (dom : Popup)
    (h : type = "INITIAL" ∨ type = "SHOW_LOADING" ∨ type = "SHOW_RESULTS_ERROR") :
    ∃ shown, updatePopupUI (some (messageState type message)) dom = .ok shown ∧
      StatusShown shown := by
  have hm : ∀ fallback, ∃ text,
      orDefault (List.lookup "message" (("type", Json.str type) ::
        match message with
        | some text => [("message", Json.str text)]
        | none => [])) fallback = some (.str text) := by
    intro fallback
    cases message with
    | none =>
      rcases h with rfl | rfl | rfl <;>
        exact ⟨fallback, by simp [orDefault, List.lookup, truthy]⟩
    | some t =>
      by_cases ht : t = ""
      · rcases h with rfl | rfl | rfl <;>
          exact ⟨fallback, by simp [orDefault, List.lookup, truthy, ht]⟩
      · rcases h with rfl | rfl | rfl <;>
          exact ⟨t, by simp [orDefault, List.lookup, truthy, ht]⟩
  rcases h with rfl | rfl | rfl
  · obtain ⟨text, htext⟩ := hm "Right-click selected job description to start."
    obtain ⟨shown, hshown, _⟩ := showStatus_str text false dom
    refine ⟨{ shown with
      resultsClasses := classAdd shown.resultsClasses "hidden"
      statusClasses := [] }, ?_, ?_⟩
    · simp only [updatePopupUI, messageState, truthy, prop, bind, Except.bind, pure, Except.pure,
        strictEqStr, htext]
      simp [hshown]
    · exact ⟨by simp [visible], fun h => h (mem_classAdd _ _)⟩
  · obtain ⟨text, htext⟩ := hm "Processing... Please wait."
    obtain ⟨shown, hshown, hst, _⟩ := showStatus_str text false dom
    refine ⟨shown, ?_, hst⟩
    simp only [updatePopupUI, messageState, truthy, prop, bind, Except.bind, pure, Except.pure,
      strictEqStr, htext]
    simpa using hshown
  · obtain ⟨text, htext⟩ := hm "An unspecified error occurred."
    obtain ⟨shown, hshown, hst, _⟩ := showStatus_str text true dom
    refine ⟨shown, ?_, hst⟩
    simp only [updatePopupUI, messageState, truthy, prop, bind, Except.bind, pure, Except.pure,
      strictEqStr, htext]
    simpa using hshown

/-- C6: `updatePopupUI` completes without throwing on `undefined` and `null`, on each of
`INITIAL`, `SHOW_LOADING` and `SHOW_RESULTS_ERROR` with or without a message, on `SHOW_RESULTS`
with its payload, on `SHOW_RESULTS` without a payload, and on any object whose type is missing
or not one of the four; the results variant shows the results container and hides the status
message, every other case shows the status message and hides the results container; the last
two cases are rendered as an error status. Whenever `updatePopupUI` completes, on any input,
exactly one of the two elements is shown. -/
theorem updatePopupUI_total (dom : Popup) :
    (∀ state, state = none ∨ state = some .null →
      ∃ shown, updatePopupUI state dom = .ok shown ∧ StatusShown shown) ∧
    (∀ type message, type = "INITIAL" ∨ type = "SHOW_LOADING" ∨ type = "SHOW_RESULTS_ERROR" →
      ∃ shown, updatePopupUI (some (messageState type message)) dom = .ok shown ∧
        StatusShown shown) ∧
    (∀ r c, ∃ shown, updatePopupUI (some (resultsState r c)) dom = .ok shown ∧
      ResultsShown shown ∧ shown.tailoredResume = r ∧ shown.coverLetter = c) ∧
    (∀ props, props.lookup "type" = some (.str "SHOW_RESULTS") →
      truthy (props.lookup "payload") = false →
      ∃ shown, updatePopupUI (some (.obj props)) dom = .ok shown ∧ StatusShown shown ∧
        shown.statusText = "Received results but no data." ∧ shown.statusClasses = ["error"]) ∧
    (∀ props, (∀ t, props.lookup "type" = some (.str t) →
        t ≠ "INITIAL" ∧ t ≠ "SHOW_LOADING" ∧ t ≠ "SHOW_RESULTS" ∧ t ≠ "SHOW_RESULTS_ERROR") →
      ∃ shown, updatePopupUI (some (.obj props)) dom = .ok shown ∧ StatusShown shown ∧
        shown.statusText = "Unexpected state. Check console." ∧
        shown.statusClasses = ["error"]) ∧
    (∀ state shown, updatePopupUI state dom = .ok shown → oneVisible shown) := by
  refine ⟨?_, fun type message h => updatePopupUI_message type message dom h, ?_, ?_, ?_,
    fun state shown h => updatePopupUI_ok state dom shown h⟩
  · intro state hstate
    obtain ⟨shown, hshown, hst, _⟩ := showStatus_str "Initializing..." false dom
    refine ⟨shown, ?_, hst⟩
    rcases hstate with rfl | rfl <;> simpa [updatePopupUI, truthy] using hshown
  · intro r c
    refine ⟨{ dom with
      tailoredResume := r
      coverLetter := c
      resultsClasses := classRemove dom.resultsClasses "hidden"
      statusClasses := classAdd dom.statusClasses "hidden" }, ?_,
      ⟨fun h => h (mem_classAdd _ _), not_mem_classRemove _ _⟩, rfl, rfl⟩
    simp [updatePopupUI, resultsState, truthy, prop, List.lookup, strictEqStr, showResults,
      textareaValueOf, toStr, Json.toStr, bind, Except.bind, pure, Except.pure]
  · intro props htype hpayload
    obtain ⟨shown, hshown, hst, htext, hcls, _⟩ :=
      showStatus_str "Received results but no data." true dom
    refine ⟨shown, ?_, hst, htext, hcls rfl⟩
    have hstate : truthy (some (.obj props)) = true := rfl
    simp [updatePopupUI, hstate, prop, htype, hpayload, strictEqStr, bind, Except.bind, pure,
      Except.pure, hshown]
  · intro props htype
    obtain ⟨shown, hshown, hst, htext, hcls, _⟩ :=
      showStatus_str "Unexpected state. Check console." true dom
    refine ⟨shown, ?_, hst, htext, hcls rfl⟩
    have hneq : ∀ t, t = "INITIAL" ∨ t = "SHOW_LOADING" ∨ t = "SHOW_RESULTS" ∨
        t = "SHOW_RESULTS_ERROR" → strictEqStr (props.lookup "type") t = false := by
      intro t ht
      cases hl : props.lookup "type" with
      | none => rfl
      | some v =>
        cases v with
        | str u =>
          have := htype u hl
          simp only [strictEqStr, decide_eq_false_iff_not]
          rintro rfl
          rcases ht with rfl | rfl | rfl | rfl <;> simp_all
        | _ => rfl
    simp [updatePopupUI, truthy, prop, bind, Except.bind, pure, Except.pure, hshown,
      hneq "INITIAL" (by simp), hneq "SHOW_LOADING" (by simp), hneq "SHOW_RESULTS" (by simp),
      hneq "SHOW_RESULTS_ERROR" (by simp)]

theorem updatePopupUI_total_witness :
    (∃ shown, updatePopupUI none samplePopup = .ok shown ∧ StatusShown shown) ∧
    (∃ shown, updatePopupUI (some (messageState "SHOW_LOADING" none)) samplePopup = .ok shown ∧
      StatusShown shown) ∧
    (∃ shown, updatePopupUI (some (.obj [("type", .str "SHOW_RESULTS")])) samplePopup = .ok shown ∧
      StatusShown shown ∧ shown.statusText = "Received results but no data." ∧
      shown.statusClasses = ["error"]) ∧
    (∃ shown, updatePopupUI (some (.obj [("type", .str "BOGUS")])) samplePopup = .ok shown ∧
      StatusShown shown ∧ shown.statusText = "Unexpected state. Check console." ∧
      shown.statusClasses = ["error"]) :=
  ⟨(updatePopupUI_total samplePopup).1 none (Or.inl rfl),
   (updatePopupUI_total samplePopup).2.1 "SHOW_LOADING" none (Or.inr (Or.inl rfl)),
   (updatePopupUI_total samplePopup).2.2.2.1 [("type", .str "SHOW_RESULTS")] rfl rfl,
   (updatePopupUI_total samplePopup).2.2.2.2.1 [("type", .str "BOGUS")]
     (by intro t h; simp [List.lookup] at h; subst h; decide)⟩

end AIResumeTailor
